import Mathlib

/-!
GDAY two-leaf canopy radiation model (`src/radiation.c`)

A shallow embedding of the radiation routines of GDAY and a verification of
their documented properties.

Modelling conventions.

* A C `double` is an element of an arbitrary linearly ordered field `α` with a
  floor function (`ℚ` and `ℝ` are instances).  Arithmetic is exact: rounding,
  infinities and NaN are outside the model.
* The `libm` functions (`sin`, `cos`, `acos`, `exp`) and the constant `M_PI`
  are parameters of the routines that call them, so every definition is
  executable over `ℚ` and every theorem that does not name a particular
  function holds whatever values `libm` returns.
* Theorems about values of the transcendental functions (periodicity, the
  solstice scenario, bounds on absorbed radiation) instantiate these parameters
  with `Real.sin`, `Real.cos`, `Real.arccos`, `Real.exp` and `Real.pi`; runs
  over `ℚ` use truncated power series in their place, or the double-precision
  values of `exp` where the last bits of those values decide the result.
  Sign properties of the absorbed-radiation outputs are stated for any `exp`
  within a given error of the exact exponential.
* A division whose divisor is not a nonzero constant is checked: a routine
  containing one returns `none` when the divisor is zero (the C program
  produces an infinity or a NaN there, which is not a number of the model).
* The record `canopy_wk` is threaded through the routines explicitly: a C
  routine that writes through `cw` is a function returning the updated record.
* A C `int` is a Lean `ℤ`; `int` arithmetic and the conversion from `double`
  wrap to 32 bits.
-/

namespace GDAY

/-! ## Data model -/

/-- Canopy working record (`canopy_wk`): the fields used by `radiation.c`.
The two-element arrays `apar_leaf` and `lai_leaf` are indexed by `SUNLIT` and
`SHADED`; each array is a pair of fields here. -/
structure canopy_wk (α : Type) where
  cos_zenith : α
  elevation : α
  diffuse_frac : α
  direct_frac : α
  apar_leaf_SUNLIT : α
  apar_leaf_SHADED : α
  lai_leaf_SUNLIT : α
  lai_leaf_SHADED : α
  deriving DecidableEq, Repr

/-- Model parameters (`params`): the fields read by `radiation.c`. -/
structure params (α : Type) where
  latitude : α
  longitude : α
  lad : α
  deriving DecidableEq, Repr

/-- Model state (`state`): the field read by `radiation.c`. -/
structure state (α : Type) where
  lai : α
  deriving DecidableEq, Repr

section Definitions

variable {α : Type} [LinearOrderedField α]

/-! ## Spitters diffuse / direct partitioning -/

/-- `calc_extra_terrestrial_rad`: solar radiation incident outside the
atmosphere, zero when the sun is not above the horizon. -/
def calc_extra_terrestrial_rad (cos : α → α) (M_PI : α) (doy cos_zenith : α) : α :=
  let Sc : α := 1370.0
  if cos_zenith > 0.0 then
    Sc * (1.0 + 0.033 * cos (doy / 365.0 * 2.0 * M_PI)) * cos_zenith
  else
    0.0

/-- `estimate_clearness`: atmospheric transmissivity, clamped to `[0, 1]`;
the division is skipped when `So <= 0`. -/
def estimate_clearness (sw_rad So : α) : α :=
  let fpar : α := 0.5
  let tau : α := if So ≤ 0.0 then 0.0 else sw_rad * fpar / So
  if tau > 1.0 then 1.0
  else if tau < 0.0 then 0.0
  else tau

/-- The value `spitters` assigns to `cw->diffuse_frac` before its final clamp
(lines 53-67 of the source). -/
def spitters_formula (cos_zenith tau : α) : α :=
  let cos_zen_sq := cos_zenith * cos_zenith
  if cos_zenith > 0.17 then
    let R := 0.847 - 1.61 * cos_zenith + 1.04 * cos_zen_sq
    let K := (1.47 - R) / 1.66
    if tau ≤ 0.22 then 1.0
    else if tau > 0.22 ∧ tau ≤ 0.35 then 1.0 - 6.4 * (tau - 0.22) * (tau - 0.22)
    else if tau > 0.35 ∧ tau ≤ K then 1.47 - 1.66 * tau
    else R
  else
    1.0

/-- The final clamp of `spitters` (lines 70-74 of the source). -/
def spitters_clamp (diffuse_frac : α) : α :=
  if diffuse_frac ≤ 0.0 then 0.0
  else if diffuse_frac ≥ 1.0 then 1.0
  else diffuse_frac

/-- `spitters`: estimates the diffuse component from the measured irradiance
and stores `diffuse_frac` and `direct_frac` in the working record. -/
def spitters (cos : α → α) (M_PI : α) (cw : canopy_wk α) (doy : ℤ) (sw_rad : α) :
    canopy_wk α :=
  let So := calc_extra_terrestrial_rad cos M_PI (doy : α) cw.cos_zenith
  let tau := estimate_clearness sw_rad So
  let cw1 := { cw with diffuse_frac := spitters_formula cw.cos_zenith tau }
  let cw2 := { cw1 with diffuse_frac := spitters_clamp cw1.diffuse_frac }
  { cw2 with direct_frac := 1.0 - cw2.diffuse_frac }

/-- `get_diffuse_frac`: wrapper around `spitters`. -/
def get_diffuse_frac (cos : α → α) (M_PI : α) (cw : canopy_wk α) (doy : ℤ) (sw_rad : α) :
    canopy_wk α :=
  spitters cos M_PI cw doy sw_rad

/-! ## Absorbed radiation (de Pury & Farquhar) -/

/-- `calculate_absorbed_radiation`: absorbed irradiance and leaf area of the
sunlit and shaded fractions of the canopy.  The divisors `cw->cos_zenith`,
`k_dash_d + kb`, `k_dash_b + kb` and `kb` are not constants, so the result is
`none` when one of them is zero. -/
def calculate_absorbed_radiation (exp : α → α) (cw : canopy_wk α) (p : params α)
    (s : state α) (par : α) : Option (canopy_wk α) :=
  let rho_cd : α := 0.036
  let rho_cb : α := 0.029
  let omega_PAR : α := 0.15
  if cw.cos_zenith = 0 then none else
  let kb : α := 0.5 / cw.cos_zenith
  let k_dash_b : α := 0.46 / cw.cos_zenith
  let k_dash_d : α := 0.718
  let lai := s.lai
  let _lad := p.lad
  let Ib := par * cw.direct_frac
  let beam := Ib * (1.0 - omega_PAR) * (1.0 - exp (-kb * lai))
  let Id := par * cw.diffuse_frac
  if k_dash_d + kb = 0 then none else
  let shaded := Id * (1.0 - rho_cd) * (1.0 - exp (-(k_dash_d + kb) * lai)) *
                  (k_dash_d / (k_dash_d + kb))
  if k_dash_b + kb = 0 then none else
  let scattered := Ib * ((1.0 - rho_cb) * (1.0 - exp (-(k_dash_b + kb) * lai)) *
                      k_dash_b / (k_dash_b + kb) - (1.0 - omega_PAR) *
                      (1.0 - exp (-2.0 * kb * lai)) / 2.0)
  let Ic := (1.0 - rho_cb) * Ib * (1.0 - exp (-k_dash_b * lai)) +
            (1.0 - rho_cd) * Id * (1.0 - exp (-k_dash_d * lai))
  let cw1 := { cw with apar_leaf_SUNLIT := beam + scattered + shaded }
  let cw2 := { cw1 with apar_leaf_SHADED := Ic - cw1.apar_leaf_SUNLIT }
  if kb = 0 then none else
  let cw3 := { cw2 with lai_leaf_SUNLIT := (1.0 - exp (-kb * lai)) / kb }
  some { cw3 with lai_leaf_SHADED := lai - cw3.lai_leaf_SUNLIT }

/-! ## Solar geometry -/

/-- Wraparound of an integer to the 32-bit range of a C `int`. -/
def wrap32 (n : ℤ) : ℤ := (n + 2 ^ 31) % 2 ^ 32 - 2 ^ 31

/-- Conversion of a `double` argument to an `int` parameter: truncation towards
zero (out-of-range values, undefined in C, wrap). -/
def double_to_int [FloorRing α] (x : α) : ℤ :=
  wrap32 (if 0 ≤ x then ⌊x⌋ else ⌈x⌉)

/-- The `libm` function `round`: nearest integer, halfway cases away from
zero. -/
def c_round [FloorRing α] (x : α) : α :=
  if 0 ≤ x then ((⌊x + 1 / 2⌋ : ℤ) : α) else ((⌈x - 1 / 2⌉ : ℤ) : α)

/-- Modelled from the spec: the header macro `DEG2RAD`, degrees to radians
(the header is not part of the sources). -/
def DEG2RAD (M_PI : α) (deg : α) : α := deg * M_PI / 180.0

/-- Modelled from the spec: the header macro `RAD2DEG`, radians to degrees
(the header is not part of the sources). -/
def RAD2DEG (M_PI : α) (rad : α) : α := 180.0 * rad / M_PI

/-- Modelled from the spec: the helper `round_to_value`, which is not part of
the sources; the standard meridian is `round(longitude / 15) * 15`. -/
def round_to_value [FloorRing α] (number roundto : α) : α :=
  c_round (number / roundto) * roundto

/-- `calculate_solar_noon`: solar noon in hours. -/
def calculate_solar_noon [FloorRing α] (et longitude : α) : α :=
  let Ls := round_to_value longitude 15
  12.0 + (4.0 * (Ls - longitude) - et) / 60.0

/-- `calculate_hour_angle`: hour angle in radians. -/
def calculate_hour_angle (M_PI : α) (t t0 : α) : α :=
  M_PI * (t - t0) / 12.0

/-- `day_angle`: day angle in radians. -/
def day_angle (M_PI : α) (doy : ℤ) : α :=
  2.0 * M_PI * ((doy : α) - 1.0) / 365.0

/-- `calculate_solar_declination`: solar declination in radians; `gamma` is
not used.  The sum `doy + 10` is `int` arithmetic. -/
def calculate_solar_declination (cos : α → α) (M_PI : α) (doy : ℤ) (_gamma : α) : α :=
  -23.4 * (M_PI / 180) * cos (2.0 * M_PI * ((wrap32 (doy + 10) : ℤ) : α) / 365)

/-- `calculate_eqn_of_time`: equation of time in minutes. -/
def calculate_eqn_of_time (sin cos : α → α) (gamma : α) : α :=
  0.017 + 0.4281 * cos gamma - 7.351 * sin gamma - 3.349 *
    cos (2.0 * gamma) - 9.731 * sin gamma

/-- The clamp of `cw->cos_zenith` in `calculate_solar_geometry` (lines 205-208
of the source). -/
def cos_zenith_clamp (sin_beta : α) : α :=
  if sin_beta > 1.0 then 1.0
  else if sin_beta < 0.0 then 0.0
  else sin_beta

/-- The value `sin_beta` computed by `calculate_solar_geometry` (lines 193-203
of the source). -/
def solar_sin_beta [FloorRing α] (sin cos : α → α) (M_PI : α) (p : params α)
    (doy hod : α) : α :=
  let hod := hod / 2.0
  let gamma := day_angle M_PI (double_to_int doy)
  let dec := calculate_solar_declination cos M_PI (double_to_int doy) gamma
  let et := calculate_eqn_of_time sin cos gamma
  let t0 := calculate_solar_noon et p.longitude
  let h := calculate_hour_angle M_PI hod t0
  let rlat := DEG2RAD M_PI p.latitude
  sin rlat * sin dec + cos rlat * cos dec * cos h

/-- `calculate_solar_geometry`: stores the clamped cosine of the zenith angle
and the solar elevation in degrees in the working record. -/
def calculate_solar_geometry [FloorRing α] (sin cos acos : α → α) (M_PI : α)
    (cw : canopy_wk α) (p : params α) (doy hod : α) : canopy_wk α :=
  let sin_beta := solar_sin_beta sin cos M_PI p doy hod
  let cw1 := { cw with cos_zenith := cos_zenith_clamp sin_beta }
  let zenith_angle := RAD2DEG M_PI (acos cw1.cos_zenith)
  { cw1 with elevation := 90.0 - zenith_angle }

end Definitions

end GDAY

namespace GDAY

section Lemmas

variable {α : Type} [LinearOrderedField α]

/-! ## Auxiliary facts -/

theorem spitters_clamp_nonneg (x : α) : 0 ≤ spitters_clamp x := by
  unfold spitters_clamp
  split_ifs with h1 h2
  · norm_num
  · norm_num
  · norm_num at h1
    exact h1.le

theorem spitters_clamp_le_one (x : α) : spitters_clamp x ≤ 1 := by
  unfold spitters_clamp
  split_ifs with h1 h2
  · norm_num
  · norm_num
  · norm_num at h2
    exact h2.le

theorem spitters_clamp_eq_max_min (x : α) : spitters_clamp x = max 0 (min 1 x) := by
  unfold spitters_clamp
  split_ifs with h1 h2
  · norm_num at h1
    rw [min_eq_right (h1.trans zero_le_one), max_eq_left h1]
    norm_num
  · norm_num at h1 h2
    rw [min_eq_left h2, max_eq_right zero_le_one]
    norm_num
  · norm_num at h1 h2
    rw [min_eq_right h2.le, max_eq_right h1.le]

theorem spitters_clamp_mono {x y : α} (h : x ≤ y) : spitters_clamp x ≤ spitters_clamp y := by
  rw [spitters_clamp_eq_max_min, spitters_clamp_eq_max_min]
  exact max_le_max le_rfl (min_le_min le_rfl h)

theorem spitters_diffuse_frac (cos : α → α) (M_PI : α) (cw : canopy_wk α) (doy : ℤ)
    (sw_rad : α) :
    (spitters cos M_PI cw doy sw_rad).diffuse_frac =
      spitters_clamp (spitters_formula cw.cos_zenith
        (estimate_clearness sw_rad
          (calc_extra_terrestrial_rad cos M_PI (doy : α) cw.cos_zenith))) := rfl

theorem spitters_direct_frac (cos : α → α) (M_PI : α) (cw : canopy_wk α) (doy : ℤ)
    (sw_rad : α) :
    (spitters cos M_PI cw doy sw_rad).direct_frac =
      1 - (spitters cos M_PI cw doy sw_rad).diffuse_frac := by
  simp only [spitters]
  norm_num

end Lemmas

section AbsorbedLemmas

variable {α : Type} [LinearOrderedField α]

/-- With nonzero divisors `calculate_absorbed_radiation` returns a record, whose
four written fields are the expressions of the source and whose other fields
are those of the input. -/
theorem calculate_absorbed_radiation_eq_some (exp : α → α) (cw : canopy_wk α)
    (p : params α) (s : state α) (par : α) (hc : cw.cos_zenith ≠ 0)
    (hd : (0.718 : α) + 0.5 / cw.cos_zenith ≠ 0) :
    ∃ cw', calculate_absorbed_radiation exp cw p s par = some cw' ∧
      cw'.cos_zenith = cw.cos_zenith ∧ cw'.elevation = cw.elevation ∧
      cw'.diffuse_frac = cw.diffuse_frac ∧ cw'.direct_frac = cw.direct_frac ∧
      cw'.apar_leaf_SUNLIT =
        par * cw.direct_frac * (1 - 0.15) * (1 - exp (-(0.5 / cw.cos_zenith) * s.lai)) +
        par * cw.direct_frac *
          ((1 - 0.029) * (1 - exp (-(0.46 / cw.cos_zenith + 0.5 / cw.cos_zenith) * s.lai)) *
              (0.46 / cw.cos_zenith) / (0.46 / cw.cos_zenith + 0.5 / cw.cos_zenith) -
            (1 - 0.15) * (1 - exp (-2 * (0.5 / cw.cos_zenith) * s.lai)) / 2) +
        par * cw.diffuse_frac * (1 - 0.036) *
          (1 - exp (-(0.718 + 0.5 / cw.cos_zenith) * s.lai)) *
          (0.718 / (0.718 + 0.5 / cw.cos_zenith)) ∧
      cw'.apar_leaf_SHADED =
        ((1 - 0.029) * (par * cw.direct_frac) *
            (1 - exp (-(0.46 / cw.cos_zenith) * s.lai)) +
          (1 - 0.036) * (par * cw.diffuse_frac) * (1 - exp (-0.718 * s.lai))) -
        cw'.apar_leaf_SUNLIT ∧
      cw'.lai_leaf_SUNLIT =
        (1 - exp (-(0.5 / cw.cos_zenith) * s.lai)) / (0.5 / cw.cos_zenith) ∧
      cw'.lai_leaf_SHADED = s.lai - cw'.lai_leaf_SUNLIT := by
  have hkb : (0.5 : α) / cw.cos_zenith ≠ 0 := div_ne_zero (by norm_num) hc
  have hkk : (0.46 : α) / cw.cos_zenith + 0.5 / cw.cos_zenith ≠ 0 := by
    rw [← add_div]
    exact div_ne_zero (by norm_num) hc
  have h1 : (1.0 : α) = 1 := by norm_num
  have h2 : (2.0 : α) = 2 := by norm_num
  simp only [calculate_absorbed_radiation, if_neg hc, if_neg hd, if_neg hkb, if_neg hkk,
    h1, h2]
  exact ⟨_, rfl, rfl, rfl, rfl, rfl, rfl, rfl, rfl, rfl⟩

end AbsorbedLemmas

section MonotoneLemmas

variable {α : Type} [LinearOrderedField α]

/-- The clamp of `estimate_clearness` read as `max 0 (min 1 _)`. -/
theorem estimate_clearness_eq_max_min (sw_rad So : α) :
    estimate_clearness sw_rad So =
      max 0 (min 1 (if So ≤ 0 then 0 else sw_rad * (1 / 2) / So)) := by
  have e0 : (0.0 : α) = 0 := by norm_num
  have e1 : (1.0 : α) = 1 := by norm_num
  have e2 : (0.5 : α) = 1 / 2 := by norm_num
  simp only [estimate_clearness, e0, e1, e2]
  generalize (if So ≤ 0 then (0 : α) else sw_rad * (1 / 2) / So) = t
  split_ifs with h1 h2
  · rw [min_eq_left h1.le, max_eq_right zero_le_one]
  · rw [min_eq_right (not_lt.mp h1), max_eq_left h2.le]
  · rw [min_eq_right (not_lt.mp h1), max_eq_right (not_lt.mp h2)]

theorem estimate_clearness_mono (So : α) {sw1 sw2 : α} (h : sw1 ≤ sw2) :
    estimate_clearness sw1 So ≤ estimate_clearness sw2 So := by
  rw [estimate_clearness_eq_max_min, estimate_clearness_eq_max_min]
  refine max_le_max le_rfl (min_le_min le_rfl ?_)
  by_cases hSo : So ≤ 0
  · rw [if_pos hSo, if_pos hSo]
  · rw [if_neg hSo, if_neg hSo]
    exact div_le_div_of_nonneg_right (mul_le_mul_of_nonneg_right h (by norm_num))
      (not_le.mp hSo).le

theorem spitters_R_lt (c : α) (hc0 : 0 ≤ c) (hc1 : c ≤ 1) :
    0.847 - 1.61 * c + 1.04 * (c * c) < (889 / 1000 : α) := by
  norm_num
  nlinarith [mul_nonneg hc0 (sub_nonneg.mpr hc1)]

/-- For `cos_zenith > 0.17` the branch conditions of `spitters` can be read as
a chain of upper bounds on `tau`. -/
theorem spitters_formula_chain (c tau : α) (hc : c > 0.17) :
    spitters_formula c tau =
      if tau ≤ 11 / 50 then 1
      else if tau ≤ 7 / 20 then 1 - 32 / 5 * (tau - 11 / 50) * (tau - 11 / 50)
      else if tau ≤ (147 / 100 - (0.847 - 1.61 * c + 1.04 * (c * c))) / (83 / 50) then
        147 / 100 - 83 / 50 * tau
      else 0.847 - 1.61 * c + 1.04 * (c * c) := by
  have e1 : (0.22 : α) = 11 / 50 := by norm_num
  have e2 : (0.35 : α) = 7 / 20 := by norm_num
  have e3 : (1.47 : α) = 147 / 100 := by norm_num
  have e4 : (1.66 : α) = 83 / 50 := by norm_num
  have e5 : (6.4 : α) = 32 / 5 := by norm_num
  have e6 : (1.0 : α) = 1 := by norm_num
  simp only [spitters_formula, if_pos hc, e1, e2, e3, e4, e5, e6]
  by_cases h1 : tau ≤ 11 / 50
  · simp only [if_pos h1]
  · simp only [if_neg h1]
    by_cases h2 : tau ≤ 7 / 20
    · simp only [if_pos h2, if_pos (And.intro (not_le.mp h1) h2)]
    · rw [if_neg (fun h => h2 h.2)]
      simp only [if_neg h2, gt_iff_lt, not_le.mp h2, true_and]

set_option maxHeartbeats 1600000 in
/-- For `cos_zenith` in `[0,1]` the value assigned by the piecewise formula is
non-increasing in the clearness index. -/
theorem spitters_formula_antitone (c t1 t2 : α) (hc0 : 0 ≤ c) (hc1 : c ≤ 1) (ht : t1 ≤ t2) :
    spitters_formula c t2 ≤ spitters_formula c t1 := by
  by_cases hc : c > 0.17
  · rw [spitters_formula_chain c t1 hc, spitters_formula_chain c t2 hc]
    have hR := spitters_R_lt c hc0 hc1
    generalize 0.847 - 1.61 * c + 1.04 * (c * c) = R at hR ⊢
    have hKR : (83 / 50 : α) * ((147 / 100 - R) / (83 / 50)) = 147 / 100 - R := by
      rw [mul_comm]; exact div_mul_cancel₀ _ (by norm_num)
    generalize (147 / 100 - R) / (83 / 50) = K at hKR ⊢
    clear hc hc0 hc1
    split_ifs with h1 h2 h3 h4 h5 h6 h7 h8 h9 h10 h11 h12 h13 h14 h15
    all_goals simp only [not_le] at *
    all_goals first | linarith | skip
    · have h := mul_self_nonneg (t2 - 11 / 50)
      linarith
    · have h := mul_nonneg (sub_nonneg.mpr ht)
        (add_pos (sub_pos.mpr h6) (sub_pos.mpr h1)).le
      linarith
    · have h := mul_nonneg (sub_pos.mpr h10).le (sub_nonneg.mpr h11)
      linarith
    · have h := mul_nonneg (sub_pos.mpr h13).le (sub_nonneg.mpr h14)
      linarith
  · simp only [spitters_formula, if_neg hc]
    exact le_rfl

end MonotoneLemmas

section Claims

variable {α : Type} [LinearOrderedField α]

/-- C1: after `spitters`, and equally after `get_diffuse_frac`, for every
`doy`, `sw_rad` and stored `cos_zenith`: `0 <= diffuse_frac <= 1`,
`direct_frac = 1 - diffuse_frac`, `diffuse_frac + direct_frac = 1` and
`0 <= direct_frac <= 1`. -/
theorem C1_fractions_complementary (cos : α → α) (M_PI : α) (cw : canopy_wk α)
    (doy : ℤ) (sw_rad : α) :
    (0 ≤ (spitters cos M_PI cw doy sw_rad).diffuse_frac ∧
      (spitters cos M_PI cw doy sw_rad).diffuse_frac ≤ 1 ∧
      (spitters cos M_PI cw doy sw_rad).direct_frac =
        1 - (spitters cos M_PI cw doy sw_rad).diffuse_frac ∧
      (spitters cos M_PI cw doy sw_rad).diffuse_frac +
        (spitters cos M_PI cw doy sw_rad).direct_frac = 1 ∧
      0 ≤ (spitters cos M_PI cw doy sw_rad).direct_frac ∧
      (spitters cos M_PI cw doy sw_rad).direct_frac ≤ 1) ∧
    get_diffuse_frac cos M_PI cw doy sw_rad = spitters cos M_PI cw doy sw_rad := by
  have h0 : 0 ≤ (spitters cos M_PI cw doy sw_rad).diffuse_frac := by
    rw [spitters_diffuse_frac]; exact spitters_clamp_nonneg _
  have h1 : (spitters cos M_PI cw doy sw_rad).diffuse_frac ≤ 1 := by
    rw [spitters_diffuse_frac]; exact spitters_clamp_le_one _
  have hd := spitters_direct_frac cos M_PI cw doy sw_rad
  refine ⟨⟨h0, h1, hd, ?_, ?_, ?_⟩, rfl⟩
  · rw [hd]; ring
  · rw [hd]; linarith
  · rw [hd]; linarith

/-- C2: for `cos_zenith > 0.17`, with `tau` the clearness index,
`R = 0.847 - 1.61*cos_zenith + 1.04*cos_zenith^2` and `K = (1.47 - R)/1.66`,
`spitters` sets `diffuse_frac` to the clamp to `[0,1]` of `1` if `tau <= 0.22`,
of `1 - 6.4*(tau - 0.22)^2` if `0.22 < tau <= 0.35`, of `1.47 - 1.66*tau` if
`0.35 < tau <= K`, and of `R` if `tau > 0.35` and `tau > K`; exactly one of
the four cases applies. -/
theorem C2_spitters_piecewise (cos : α → α) (M_PI : α) (cw : canopy_wk α) (doy : ℤ)
    (sw_rad tau R K : α) (hc : cw.cos_zenith > 0.17)
    (htau : tau = estimate_clearness sw_rad
      (calc_extra_terrestrial_rad cos M_PI (doy : α) cw.cos_zenith))
    (hR : R = 0.847 - 1.61 * cw.cos_zenith + 1.04 * cw.cos_zenith ^ 2)
    (hK : K = (1.47 - R) / 1.66) :
    (tau ≤ 0.22 →
      (spitters cos M_PI cw doy sw_rad).diffuse_frac = max 0 (min 1 1)) ∧
    (0.22 < tau ∧ tau ≤ 0.35 →
      (spitters cos M_PI cw doy sw_rad).diffuse_frac =
        max 0 (min 1 (1 - 6.4 * (tau - 0.22) ^ 2))) ∧
    (0.35 < tau ∧ tau ≤ K →
      (spitters cos M_PI cw doy sw_rad).diffuse_frac =
        max 0 (min 1 (1.47 - 1.66 * tau))) ∧
    (tau > 0.35 ∧ tau > K →
      (spitters cos M_PI cw doy sw_rad).diffuse_frac = max 0 (min 1 R)) ∧
    (tau ≤ 0.22 ∨ (0.22 < tau ∧ tau ≤ 0.35) ∨ (0.35 < tau ∧ tau ≤ K) ∨
      (tau > 0.35 ∧ tau > K)) ∧
    ¬ (tau ≤ 0.22 ∧ (0.22 < tau ∧ tau ≤ 0.35)) ∧
    ¬ (tau ≤ 0.22 ∧ (0.35 < tau ∧ tau ≤ K)) ∧
    ¬ (tau ≤ 0.22 ∧ (tau > 0.35 ∧ tau > K)) ∧
    ¬ ((0.22 < tau ∧ tau ≤ 0.35) ∧ (0.35 < tau ∧ tau ≤ K)) ∧
    ¬ ((0.22 < tau ∧ tau ≤ 0.35) ∧ (tau > 0.35 ∧ tau > K)) ∧
    ¬ ((0.35 < tau ∧ tau ≤ K) ∧ (tau > 0.35 ∧ tau > K)) := by
  have h22 : (0.22 : α) < 0.35 := by norm_num
  have hdf : (spitters cos M_PI cw doy sw_rad).diffuse_frac =
      max 0 (min 1 (spitters_formula cw.cos_zenith tau)) := by
    rw [spitters_diffuse_frac, spitters_clamp_eq_max_min, htau]
  have hR2 : 0.847 - 1.61 * cw.cos_zenith + 1.04 * (cw.cos_zenith * cw.cos_zenith) = R := by
    rw [hR]; ring
  have hf : spitters_formula cw.cos_zenith tau =
      if tau ≤ 0.22 then 1.0
      else if tau > 0.22 ∧ tau ≤ 0.35 then 1.0 - 6.4 * (tau - 0.22) * (tau - 0.22)
      else if tau > 0.35 ∧ tau ≤ K then 1.47 - 1.66 * tau
      else R := by
    simp only [spitters_formula, if_pos hc, hR2, ← hK]
  rw [hdf, hf]
  refine ⟨?_, ?_, ?_, ?_, ?_, ?_, ?_, ?_, ?_, ?_, ?_⟩
  · intro h
    rw [if_pos h]; norm_num
  · intro h
    rw [if_neg (not_le.mpr h.1), if_pos h]
    congr 2; ring
  · intro h
    rw [if_neg (not_le.mpr (h22.trans h.1)), if_neg (fun h2 => absurd h.1 (not_lt.mpr h2.2)),
      if_pos h]
  · intro h
    rw [if_neg (not_le.mpr (h22.trans h.1)), if_neg (fun h2 => absurd h.1 (not_lt.mpr h2.2)),
      if_neg (fun h2 => absurd h.2 (not_lt.mpr h2.2))]
  · rcases le_or_lt tau 0.22 with h1 | h1
    · exact Or.inl h1
    · rcases le_or_lt tau 0.35 with h2 | h2
      · exact Or.inr (Or.inl ⟨h1, h2⟩)
      · rcases le_or_lt tau K with h3 | h3
        · exact Or.inr (Or.inr (Or.inl ⟨h2, h3⟩))
        · exact Or.inr (Or.inr (Or.inr ⟨h2, h3⟩))
  · rintro ⟨h1, h2, -⟩; exact absurd h2 (not_lt.mpr h1)
  · rintro ⟨h1, h2, -⟩; exact absurd (h22.trans h2) (not_lt.mpr h1)
  · rintro ⟨h1, h2, -⟩; exact absurd (h22.trans h2) (not_lt.mpr h1)
  · rintro ⟨⟨-, h1⟩, h2, -⟩; exact absurd h2 (not_lt.mpr h1)
  · rintro ⟨⟨-, h1⟩, h2, -⟩; exact absurd h2 (not_lt.mpr h1)
  · rintro ⟨⟨-, h1⟩, -, h2⟩; exact absurd h2 (not_lt.mpr h1)

/-- C3: for every `cos_zenith <= 0.17`, every `doy` and every `sw_rad`,
`spitters` sets `diffuse_frac = 1` and `direct_frac = 0`. -/
theorem C3_low_sun_fully_diffuse (cos : α → α) (M_PI : α) (cw : canopy_wk α) (doy : ℤ)
    (sw_rad : α) (hc : cw.cos_zenith ≤ 0.17) :
    (spitters cos M_PI cw doy sw_rad).diffuse_frac = 1 ∧
    (spitters cos M_PI cw doy sw_rad).direct_frac = 0 := by
  have hdf : (spitters cos M_PI cw doy sw_rad).diffuse_frac = 1 := by
    rw [spitters_diffuse_frac]
    simp only [spitters_formula, if_neg (not_lt.mpr hc)]
    norm_num [spitters_clamp]
  exact ⟨hdf, by rw [spitters_direct_frac, hdf]; ring⟩

/-- C4: `estimate_clearness` always returns a value in `[0,1]`; it returns `0`
whenever `So <= 0` or `sw_rad <= 0`; and whenever the clearness index of the
call is `0`, `spitters` sets `diffuse_frac = 1` and `direct_frac = 0`. -/
theorem C4_clearness_range_and_zero :
    (∀ sw_rad So : α,
      0 ≤ estimate_clearness sw_rad So ∧ estimate_clearness sw_rad So ≤ 1) ∧
    (∀ sw_rad So : α, So ≤ 0 ∨ sw_rad ≤ 0 → estimate_clearness sw_rad So = 0) ∧
    (∀ (cos : α → α) (M_PI : α) (cw : canopy_wk α) (doy : ℤ) (sw_rad : α),
      estimate_clearness sw_rad
          (calc_extra_terrestrial_rad cos M_PI (doy : α) cw.cos_zenith) = 0 →
        (spitters cos M_PI cw doy sw_rad).diffuse_frac = 1 ∧
        (spitters cos M_PI cw doy sw_rad).direct_frac = 0) := by
  refine ⟨?_, ?_, ?_⟩
  · intro sw_rad So
    simp only [estimate_clearness]
    generalize (if So ≤ (0.0 : α) then (0.0 : α) else sw_rad * 0.5 / So) = t
    split_ifs with h1 h2
    · norm_num
    · norm_num
    · norm_num at h1 h2
      exact ⟨h2, h1⟩
  · rintro sw_rad So (h | h)
    · simp only [estimate_clearness]
      have h' : So ≤ (0.0 : α) := by norm_num; exact h
      rw [if_pos h']
      norm_num
    · simp only [estimate_clearness]
      by_cases hSo : So ≤ (0.0 : α)
      · rw [if_pos hSo]
        norm_num
      · rw [if_neg hSo]
        have hSo' : (0 : α) ≤ So := by
          have := not_le.mp hSo
          norm_num at this
          exact this.le
        have hq : sw_rad * 0.5 / So ≤ 0 :=
          div_nonpos_of_nonpos_of_nonneg (mul_nonpos_of_nonpos_of_nonneg h (by norm_num)) hSo'
        have h1 : ¬ sw_rad * 0.5 / So > (1.0 : α) := by
          norm_num
          have : (0 : α) ≤ 1 := zero_le_one
          norm_num at hq
          linarith
        rw [if_neg h1]
        split_ifs with h2
        · norm_num
        · have h3 : (0.0 : α) ≤ sw_rad * 0.5 / So := not_lt.mp h2
          have h4 : (0 : α) ≤ sw_rad * 0.5 / So := by
            have h5 : (0.0 : α) = 0 := by norm_num
            rw [← h5]
            exact h3
          exact le_antisymm hq h4
  · intro cos M_PI cw doy sw_rad h
    have hdf : (spitters cos M_PI cw doy sw_rad).diffuse_frac = 1 := by
      rw [spitters_diffuse_frac, h]
      simp only [spitters_formula]
      split_ifs <;> norm_num [spitters_clamp] at *
    exact ⟨hdf, by rw [spitters_direct_frac, hdf]; ring⟩

/-- Witness for C2 at `cos_zenith = 0.6`, `doy = 0` (so `So = 849.126`), with
`sw_rad = 169.8252`, `509.4756`, `849.126` and `1358.6016`, whose clearness
indices `0.1`, `0.3`, `0.5` and `0.8` fall in the four cases in turn. -/
theorem C2_spitters_piecewise_witness :
    ((⟨0.6, 0, 0, 0, 0, 0, 0, 0⟩ : canopy_wk ℝ).cos_zenith > 0.17) ∧
    ((0.1 : ℝ) ≤ 0.22 ∧
      (spitters Real.cos Real.pi (⟨0.6, 0, 0, 0, 0, 0, 0, 0⟩ : canopy_wk ℝ) 0
        169.8252).diffuse_frac = max 0 (min 1 1)) ∧
    (((0.22 : ℝ) < 0.3 ∧ (0.3 : ℝ) ≤ 0.35) ∧
      (spitters Real.cos Real.pi (⟨0.6, 0, 0, 0, 0, 0, 0, 0⟩ : canopy_wk ℝ) 0
        509.4756).diffuse_frac = max 0 (min 1 (1 - 6.4 * (0.3 - 0.22) ^ 2))) ∧
    (((0.35 : ℝ) < 0.5 ∧ (0.5 : ℝ) ≤ (1.47 - 0.2554) / 1.66) ∧
      (spitters Real.cos Real.pi (⟨0.6, 0, 0, 0, 0, 0, 0, 0⟩ : canopy_wk ℝ) 0
        849.126).diffuse_frac = max 0 (min 1 (1.47 - 1.66 * 0.5))) ∧
    (((0.8 : ℝ) > 0.35 ∧ (0.8 : ℝ) > (1.47 - 0.2554) / 1.66) ∧
      (spitters Real.cos Real.pi (⟨0.6, 0, 0, 0, 0, 0, 0, 0⟩ : canopy_wk ℝ) 0
        1358.6016).diffuse_frac = max 0 (min 1 0.2554)) :=
  ⟨by norm_num,
   ⟨by norm_num,
    (C2_spitters_piecewise Real.cos Real.pi ⟨0.6, 0, 0, 0, 0, 0, 0, 0⟩ 0 169.8252
      0.1 0.2554 ((1.47 - 0.2554) / 1.66) (by norm_num)
      (by norm_num [estimate_clearness, calc_extra_terrestrial_rad])
      (by norm_num) rfl).1 (by norm_num)⟩,
   ⟨by norm_num,
    (C2_spitters_piecewise Real.cos Real.pi ⟨0.6, 0, 0, 0, 0, 0, 0, 0⟩ 0 509.4756
      0.3 0.2554 ((1.47 - 0.2554) / 1.66) (by norm_num)
      (by norm_num [estimate_clearness, calc_extra_terrestrial_rad])
      (by norm_num) rfl).2.1 (by norm_num)⟩,
   ⟨by norm_num,
    (C2_spitters_piecewise Real.cos Real.pi ⟨0.6, 0, 0, 0, 0, 0, 0, 0⟩ 0 849.126
      0.5 0.2554 ((1.47 - 0.2554) / 1.66) (by norm_num)
      (by norm_num [estimate_clearness, calc_extra_terrestrial_rad])
      (by norm_num) rfl).2.2.1 (by norm_num)⟩,
   ⟨by norm_num,
    (C2_spitters_piecewise Real.cos Real.pi ⟨0.6, 0, 0, 0, 0, 0, 0, 0⟩ 0 1358.6016
      0.8 0.2554 ((1.47 - 0.2554) / 1.66) (by norm_num)
      (by norm_num [estimate_clearness, calc_extra_terrestrial_rad])
      (by norm_num) rfl).2.2.2.1 (by norm_num)⟩⟩

/-- Witness for C3 at `cos_zenith = 0.1`, `doy = 172`, `sw_rad = 500`. -/
theorem C3_low_sun_fully_diffuse_witness :
    ((⟨0.1, 0, 0, 0, 0, 0, 0, 0⟩ : canopy_wk ℝ).cos_zenith ≤ 0.17) ∧
    (spitters Real.cos Real.pi (⟨0.1, 0, 0, 0, 0, 0, 0, 0⟩ : canopy_wk ℝ) 172
      500).diffuse_frac = 1 ∧
    (spitters Real.cos Real.pi (⟨0.1, 0, 0, 0, 0, 0, 0, 0⟩ : canopy_wk ℝ) 172
      500).direct_frac = 0 :=
  ⟨by norm_num,
   C3_low_sun_fully_diffuse Real.cos Real.pi ⟨0.1, 0, 0, 0, 0, 0, 0, 0⟩ 172 500
     (by norm_num)⟩

/-- Witness for C4: `So = 0` with `sw_rad = 500`, `sw_rad = -3` with
`So = 1000`, and `spitters` at night (`cos_zenith = 0`, so `So = 0` and the
clearness index is `0`). -/
theorem C4_clearness_range_and_zero_witness :
    (((0 : ℝ) ≤ 0 ∨ (500 : ℝ) ≤ 0) ∧ estimate_clearness (500 : ℝ) 0 = 0) ∧
    (((1000 : ℝ) ≤ 0 ∨ (-3 : ℝ) ≤ 0) ∧ estimate_clearness (-3 : ℝ) 1000 = 0) ∧
    (estimate_clearness (500 : ℝ)
        (calc_extra_terrestrial_rad Real.cos Real.pi ((172 : ℤ) : ℝ)
          (⟨0, 0, 0, 0, 0, 0, 0, 0⟩ : canopy_wk ℝ).cos_zenith) = 0 ∧
      (spitters Real.cos Real.pi (⟨0, 0, 0, 0, 0, 0, 0, 0⟩ : canopy_wk ℝ) 172
        500).diffuse_frac = 1 ∧
      (spitters Real.cos Real.pi (⟨0, 0, 0, 0, 0, 0, 0, 0⟩ : canopy_wk ℝ) 172
        500).direct_frac = 0) :=
  ⟨⟨Or.inl le_rfl, C4_clearness_range_and_zero.2.1 500 0 (Or.inl le_rfl)⟩,
   ⟨Or.inr (by norm_num), C4_clearness_range_and_zero.2.1 (-3) 1000 (Or.inr (by norm_num))⟩,
   ⟨by norm_num [estimate_clearness, calc_extra_terrestrial_rad],
    C4_clearness_range_and_zero.2.2 Real.cos Real.pi ⟨0, 0, 0, 0, 0, 0, 0, 0⟩ 172 500
      (by norm_num [estimate_clearness, calc_extra_terrestrial_rad])⟩⟩

/-- C5: for every `lai >= 0`, every `cos_zenith > 0` and every `par`,
`direct_frac`, `diffuse_frac`, `calculate_absorbed_radiation` returns with
`lai_leaf[SUNLIT] + lai_leaf[SHADED] = lai`, where
`lai_leaf[SUNLIT] = (1 - exp(-kb*lai))/kb` and `kb = 0.5/cos_zenith`. -/
theorem C5_lai_partition (exp : α → α) (cw : canopy_wk α) (p : params α) (s : state α)
    (par kb : α) (_hlai : 0 ≤ s.lai) (hc : 0 < cw.cos_zenith)
    (hkb : kb = 0.5 / cw.cos_zenith) :
    ∃ cw', calculate_absorbed_radiation exp cw p s par = some cw' ∧
      cw'.lai_leaf_SUNLIT + cw'.lai_leaf_SHADED = s.lai ∧
      cw'.lai_leaf_SUNLIT = (1 - exp (-kb * s.lai)) / kb := by
  have hd : (0.718 : α) + 0.5 / cw.cos_zenith ≠ 0 :=
    (add_pos (by norm_num) (div_pos (by norm_num) hc)).ne'
  obtain ⟨cw', h, -, -, -, -, -, -, hsun, hsha⟩ :=
    calculate_absorbed_radiation_eq_some exp cw p s par hc.ne' hd
  refine ⟨cw', h, ?_, ?_⟩
  · rw [hsha]; ring
  · rw [hsun, hkb]

/-- Witness for C5 at `cos_zenith = 0.5`, `lai = 2`, `par = 100` (so `kb = 1`). -/
theorem C5_lai_partition_witness :
    (0 ≤ (⟨2⟩ : state ℝ).lai ∧
      0 < (⟨0.5, 30, 0.4, 0.6, 0, 0, 0, 0⟩ : canopy_wk ℝ).cos_zenith) ∧
    ∃ cw', calculate_absorbed_radiation Real.exp (⟨0.5, 30, 0.4, 0.6, 0, 0, 0, 0⟩ : canopy_wk ℝ)
        ⟨45, 0, 1⟩ ⟨2⟩ 100 = some cw' ∧
      cw'.lai_leaf_SUNLIT + cw'.lai_leaf_SHADED = (⟨2⟩ : state ℝ).lai ∧
      cw'.lai_leaf_SUNLIT = (1 - Real.exp (-1 * (⟨2⟩ : state ℝ).lai)) / 1 :=
  ⟨⟨by norm_num, by norm_num⟩,
   C5_lai_partition Real.exp ⟨0.5, 30, 0.4, 0.6, 0, 0, 0, 0⟩ ⟨45, 0, 1⟩ ⟨2⟩ 100 1
     (by norm_num) (by norm_num) (by norm_num)⟩

/-- C6: for every `cos_zenith > 0`, `lai`, `par`, `direct_frac` and
`diffuse_frac`, `calculate_absorbed_radiation` returns with
`apar_leaf[SUNLIT] + apar_leaf[SHADED] = Ic`, where
`Ic = (1 - 0.029)*Ib*(1 - exp(-k_dash_b*lai)) + (1 - 0.036)*Id*(1 - exp(-0.718*lai))`,
`Ib = par*direct_frac`, `Id = par*diffuse_frac`, `k_dash_b = 0.46/cos_zenith`,
and `apar_leaf[SUNLIT] = beam + scattered + shaded` with the three terms of
the function. -/
theorem C6_apar_partition (exp : α → α) (cw : canopy_wk α) (p : params α) (s : state α)
    (par Ib Id Ic kb k_dash_b beam scattered shaded : α) (hc : 0 < cw.cos_zenith)
    (hIb : Ib = par * cw.direct_frac) (hId : Id = par * cw.diffuse_frac)
    (hkb : kb = 0.5 / cw.cos_zenith) (hkdb : k_dash_b = 0.46 / cw.cos_zenith)
    (hIc : Ic = (1 - 0.029) * Ib * (1 - exp (-k_dash_b * s.lai)) +
      (1 - 0.036) * Id * (1 - exp (-0.718 * s.lai)))
    (hbeam : beam = Ib * (1 - 0.15) * (1 - exp (-kb * s.lai)))
    (hshaded : shaded = Id * (1 - 0.036) * (1 - exp (-(0.718 + kb) * s.lai)) *
      (0.718 / (0.718 + kb)))
    (hscattered : scattered = Ib * ((1 - 0.029) * (1 - exp (-(k_dash_b + kb) * s.lai)) *
      k_dash_b / (k_dash_b + kb) - (1 - 0.15) * (1 - exp (-2 * kb * s.lai)) / 2)) :
    ∃ cw', calculate_absorbed_radiation exp cw p s par = some cw' ∧
      cw'.apar_leaf_SUNLIT + cw'.apar_leaf_SHADED = Ic ∧
      cw'.apar_leaf_SUNLIT = beam + scattered + shaded := by
  have hd : (0.718 : α) + 0.5 / cw.cos_zenith ≠ 0 :=
    (add_pos (by norm_num) (div_pos (by norm_num) hc)).ne'
  obtain ⟨cw', h, -, -, -, -, hsun, hsha, -, -⟩ :=
    calculate_absorbed_radiation_eq_some exp cw p s par hc.ne' hd
  refine ⟨cw', h, ?_, ?_⟩
  · rw [hsha, hIc, hIb, hId, hkdb]; ring
  · rw [hsun, hbeam, hscattered, hshaded, hIb, hId, hkb, hkdb]

/-- Witness for C6 at `cos_zenith = 0.5`, `lai = 2`, `par = 100`,
`diffuse_frac = 0.4`, `direct_frac = 0.6` (so `Ib = 60`, `Id = 40`, `kb = 1`,
`k_dash_b = 0.92`). -/
theorem C6_apar_partition_witness :
    0 < (⟨0.5, 30, 0.4, 0.6, 0, 0, 0, 0⟩ : canopy_wk ℝ).cos_zenith ∧
    ∃ cw', calculate_absorbed_radiation Real.exp (⟨0.5, 30, 0.4, 0.6, 0, 0, 0, 0⟩ : canopy_wk ℝ)
        ⟨45, 0, 1⟩ ⟨2⟩ 100 = some cw' ∧
      cw'.apar_leaf_SUNLIT + cw'.apar_leaf_SHADED =
        (1 - 0.029) * 60 * (1 - Real.exp (-0.92 * (⟨2⟩ : state ℝ).lai)) +
          (1 - 0.036) * 40 * (1 - Real.exp (-0.718 * (⟨2⟩ : state ℝ).lai)) ∧
      cw'.apar_leaf_SUNLIT =
        60 * (1 - 0.15) * (1 - Real.exp (-1 * (⟨2⟩ : state ℝ).lai)) +
        60 * ((1 - 0.029) * (1 - Real.exp (-(0.92 + 1) * (⟨2⟩ : state ℝ).lai)) *
          0.92 / (0.92 + 1) -
          (1 - 0.15) * (1 - Real.exp (-2 * 1 * (⟨2⟩ : state ℝ).lai)) / 2) +
        40 * (1 - 0.036) * (1 - Real.exp (-(0.718 + 1) * (⟨2⟩ : state ℝ).lai)) *
          (0.718 / (0.718 + 1)) :=
  ⟨by norm_num,
   C6_apar_partition Real.exp ⟨0.5, 30, 0.4, 0.6, 0, 0, 0, 0⟩ ⟨45, 0, 1⟩ ⟨2⟩ 100
     60 40 _ 1 0.92 _ _ _ (by norm_num) (by norm_num) (by norm_num) (by norm_num)
     (by norm_num) rfl rfl rfl rfl⟩

/-- C7 (as stated, refuted): at night (`cos_zenith = 0`, `diffuse_frac = 1`,
`direct_frac = 0`) with `lai = 0` and `par = 100` the divisor of `kb` and
`k_dash_b` is zero, so `calculate_absorbed_radiation` has no result in the
model (the C program computes `-kb * lai` as infinity times zero, a NaN, which
reaches all four outputs); in particular it does not return four zeros. -/
theorem C7_zero_lai_counterexample :
    (⟨0⟩ : state ℝ).lai = 0 ∧
    calculate_absorbed_radiation Real.exp (⟨0, 0, 1, 0, 0, 0, 0, 0⟩ : canopy_wk ℝ)
      ⟨45, 0, 1⟩ ⟨0⟩ 100 = none ∧
    ¬ ∃ cw', calculate_absorbed_radiation Real.exp (⟨0, 0, 1, 0, 0, 0, 0, 0⟩ : canopy_wk ℝ)
        ⟨45, 0, 1⟩ ⟨0⟩ 100 = some cw' ∧
      cw'.apar_leaf_SUNLIT = 0 ∧ cw'.apar_leaf_SHADED = 0 ∧
      cw'.lai_leaf_SUNLIT = 0 ∧ cw'.lai_leaf_SHADED = 0 := by
  have h : calculate_absorbed_radiation Real.exp (⟨0, 0, 1, 0, 0, 0, 0, 0⟩ : canopy_wk ℝ)
      ⟨45, 0, 1⟩ ⟨0⟩ 100 = none := by
    simp [calculate_absorbed_radiation]
  refine ⟨rfl, h, ?_⟩
  rintro ⟨cw', h', -⟩
  rw [h] at h'
  exact Option.noConfusion h'

/-- C7 (amended): for `lai = 0` and every `cos_zenith` at which no divisor of
the function is zero (`cos_zenith` and `0.718 + 0.5/cos_zenith` nonzero, which
holds for every `cos_zenith > 0`), every `par` and every `direct_frac` and
`diffuse_frac`, `calculate_absorbed_radiation` returns with
`apar_leaf[SUNLIT] = 0`, `apar_leaf[SHADED] = 0`, `lai_leaf[SUNLIT] = 0` and
`lai_leaf[SHADED] = 0`; `exp` is any function with `exp 0 = 1`. -/
theorem C7_zero_lai (exp : α → α) (hexp : exp 0 = 1) (cw : canopy_wk α) (p : params α)
    (s : state α) (par : α) (hlai : s.lai = 0) (hc : cw.cos_zenith ≠ 0)
    (hd : (0.718 : α) + 0.5 / cw.cos_zenith ≠ 0) :
    ∃ cw', calculate_absorbed_radiation exp cw p s par = some cw' ∧
      cw'.apar_leaf_SUNLIT = 0 ∧ cw'.apar_leaf_SHADED = 0 ∧
      cw'.lai_leaf_SUNLIT = 0 ∧ cw'.lai_leaf_SHADED = 0 := by
  obtain ⟨cw', h, -, -, -, -, hasun, hasha, hsun, hsha⟩ :=
    calculate_absorbed_radiation_eq_some exp cw p s par hc hd
  have h1 : cw'.apar_leaf_SUNLIT = 0 := by
    rw [hasun, hlai]; simp only [mul_zero, hexp]; ring
  have h2 : cw'.lai_leaf_SUNLIT = 0 := by
    rw [hsun, hlai]; simp only [mul_zero, hexp]; simp
  refine ⟨cw', h, h1, ?_, h2, ?_⟩
  · rw [hasha, h1, hlai]; simp only [mul_zero, hexp]; ring
  · rw [hsha, h2, hlai]; ring

/-- Witness for C7 (amended) with the real exponential at `cos_zenith = 0.5`,
`lai = 0`, `par = 100`. -/
theorem C7_zero_lai_witness :
    (Real.exp 0 = 1 ∧ (⟨0⟩ : state ℝ).lai = 0 ∧
      (⟨0.5, 30, 0.4, 0.6, 7, 7, 7, 7⟩ : canopy_wk ℝ).cos_zenith ≠ 0 ∧
      (0.718 : ℝ) + 0.5 / (⟨0.5, 30, 0.4, 0.6, 7, 7, 7, 7⟩ : canopy_wk ℝ).cos_zenith ≠ 0) ∧
    ∃ cw', calculate_absorbed_radiation Real.exp (⟨0.5, 30, 0.4, 0.6, 7, 7, 7, 7⟩ : canopy_wk ℝ)
        ⟨45, 0, 1⟩ ⟨0⟩ 100 = some cw' ∧
      cw'.apar_leaf_SUNLIT = 0 ∧ cw'.apar_leaf_SHADED = 0 ∧
      cw'.lai_leaf_SUNLIT = 0 ∧ cw'.lai_leaf_SHADED = 0 :=
  ⟨⟨Real.exp_zero, rfl, by norm_num, by norm_num⟩,
   C7_zero_lai Real.exp Real.exp_zero ⟨0.5, 30, 0.4, 0.6, 7, 7, 7, 7⟩ ⟨45, 0, 1⟩ ⟨0⟩ 100
     rfl (by norm_num) (by norm_num)⟩

/-- C8: for every `doy`, `hod`, latitude and longitude,
`calculate_solar_geometry` leaves `0 <= cos_zenith <= 1`: `cos_zenith` equals
`sin_beta = sin(lat)*sin(dec) + cos(lat)*cos(dec)*cos(h)` when that lies in
`[0,1]`, `0` when it is negative and `1` when it exceeds `1`; and
`elevation = 90 - degrees(acos(cos_zenith))`. -/
theorem C8_cos_zenith_clamped [FloorRing α] (sin cos acos : α → α) (M_PI : α)
    (cw : canopy_wk α) (p : params α) (doy hod gamma lat dec h sin_beta : α)
    (hgamma : gamma = day_angle M_PI (double_to_int doy))
    (hlat : lat = DEG2RAD M_PI p.latitude)
    (hdec : dec = calculate_solar_declination cos M_PI (double_to_int doy) gamma)
    (hh : h = calculate_hour_angle M_PI (hod / 2)
      (calculate_solar_noon (calculate_eqn_of_time sin cos gamma) p.longitude))
    (hsb : sin_beta = sin lat * sin dec + cos lat * cos dec * cos h) :
    0 ≤ (calculate_solar_geometry sin cos acos M_PI cw p doy hod).cos_zenith ∧
    (calculate_solar_geometry sin cos acos M_PI cw p doy hod).cos_zenith ≤ 1 ∧
    (0 ≤ sin_beta ∧ sin_beta ≤ 1 →
      (calculate_solar_geometry sin cos acos M_PI cw p doy hod).cos_zenith = sin_beta) ∧
    (sin_beta < 0 →
      (calculate_solar_geometry sin cos acos M_PI cw p doy hod).cos_zenith = 0) ∧
    (sin_beta > 1 →
      (calculate_solar_geometry sin cos acos M_PI cw p doy hod).cos_zenith = 1) ∧
    (calculate_solar_geometry sin cos acos M_PI cw p doy hod).elevation =
      90 - RAD2DEG M_PI
        (acos (calculate_solar_geometry sin cos acos M_PI cw p doy hod).cos_zenith) := by
  have hsb' : solar_sin_beta sin cos M_PI p doy hod = sin_beta := by
    have h2 : (2.0 : α) = 2 := by norm_num
    simp only [solar_sin_beta, h2]
    rw [hsb, hh, hdec, hlat, hgamma]
  have hcz : (calculate_solar_geometry sin cos acos M_PI cw p doy hod).cos_zenith =
      cos_zenith_clamp sin_beta := by
    rw [← hsb']; rfl
  have hel : (calculate_solar_geometry sin cos acos M_PI cw p doy hod).elevation =
      90 - RAD2DEG M_PI
        (acos (calculate_solar_geometry sin cos acos M_PI cw p doy hod).cos_zenith) := by
    simp only [calculate_solar_geometry]
    norm_num
  have h1 : (1.0 : α) = 1 := by norm_num
  have h0 : (0.0 : α) = 0 := by norm_num
  rw [hcz]
  simp only [cos_zenith_clamp, h1, h0]
  refine ⟨?_, ?_, ?_, ?_, ?_, ?_⟩
  · split_ifs with ha hb
    · exact zero_le_one
    · exact le_rfl
    · exact not_lt.mp hb
  · split_ifs with ha hb
    · exact le_rfl
    · exact zero_le_one
    · exact not_lt.mp ha
  · rintro ⟨ha, hb⟩
    rw [if_neg (not_lt.mpr hb), if_neg (not_lt.mpr ha)]
  · intro ha
    rw [if_neg (not_lt.mpr (ha.le.trans zero_le_one)), if_pos ha]
  · intro ha
    rw [if_pos ha]
  · rw [hel, hcz]
    simp only [cos_zenith_clamp, h1, h0]

/-- Witness for C8 over `ℚ`, with `M_PI = 3.14159` and the truncated series
`x - x^3/6`, `1 - x^2/2` and `π/2 - x` standing for `sin`, `cos` and `acos`:
on day 1 at latitude 0 and longitude 0, noon (`hod = 24`) gives `sin_beta` in
`[0,1]` and midnight (`hod = 0`) gives `sin_beta < 0`; at latitude -90 and
midnight the error of the series pushes `sin_beta` above `1`. -/
theorem C8_cos_zenith_clamped_witness :
    ((0 ≤ solar_sin_beta (fun x : ℚ => x - x ^ 3 / 6) (fun x => 1 - x ^ 2 / 2) 3.14159
          ⟨0, 0, 1⟩ 1 24 ∧
        solar_sin_beta (fun x : ℚ => x - x ^ 3 / 6) (fun x => 1 - x ^ 2 / 2) 3.14159
          ⟨0, 0, 1⟩ 1 24 ≤ 1) ∧
      (calculate_solar_geometry (fun x : ℚ => x - x ^ 3 / 6) (fun x => 1 - x ^ 2 / 2)
          (fun x => 3.14159 / 2 - x) 3.14159 ⟨0, 0, 0, 0, 0, 0, 0, 0⟩ ⟨0, 0, 1⟩ 1 24).cos_zenith =
        solar_sin_beta (fun x : ℚ => x - x ^ 3 / 6) (fun x => 1 - x ^ 2 / 2) 3.14159
          ⟨0, 0, 1⟩ 1 24) ∧
    (solar_sin_beta (fun x : ℚ => x - x ^ 3 / 6) (fun x => 1 - x ^ 2 / 2) 3.14159
        ⟨0, 0, 1⟩ 1 0 < 0 ∧
      (calculate_solar_geometry (fun x : ℚ => x - x ^ 3 / 6) (fun x => 1 - x ^ 2 / 2)
          (fun x => 3.14159 / 2 - x) 3.14159 ⟨0, 0, 0, 0, 0, 0, 0, 0⟩ ⟨0, 0, 1⟩ 1 0).cos_zenith =
        0) ∧
    (solar_sin_beta (fun x : ℚ => x - x ^ 3 / 6) (fun x => 1 - x ^ 2 / 2) 3.14159
        ⟨-90, 0, 1⟩ 1 0 > 1 ∧
      (calculate_solar_geometry (fun x : ℚ => x - x ^ 3 / 6) (fun x => 1 - x ^ 2 / 2)
          (fun x => 3.14159 / 2 - x) 3.14159 ⟨0, 0, 0, 0, 0, 0, 0, 0⟩ ⟨-90, 0, 1⟩ 1 0).cos_zenith =
        1) := by
  have ha : 0 ≤ solar_sin_beta (fun x : ℚ => x - x ^ 3 / 6) (fun x => 1 - x ^ 2 / 2) 3.14159
        ⟨0, 0, 1⟩ 1 24 ∧
      solar_sin_beta (fun x : ℚ => x - x ^ 3 / 6) (fun x => 1 - x ^ 2 / 2) 3.14159
        ⟨0, 0, 1⟩ 1 24 ≤ 1 := by
    norm_num [solar_sin_beta, double_to_int, wrap32, day_angle, calculate_solar_declination,
      calculate_eqn_of_time, calculate_solar_noon, round_to_value, c_round,
      calculate_hour_angle, DEG2RAD]
  have hb : solar_sin_beta (fun x : ℚ => x - x ^ 3 / 6) (fun x => 1 - x ^ 2 / 2) 3.14159
        ⟨0, 0, 1⟩ 1 0 < 0 := by
    norm_num [solar_sin_beta, double_to_int, wrap32, day_angle, calculate_solar_declination,
      calculate_eqn_of_time, calculate_solar_noon, round_to_value, c_round,
      calculate_hour_angle, DEG2RAD]
  have hc : solar_sin_beta (fun x : ℚ => x - x ^ 3 / 6) (fun x => 1 - x ^ 2 / 2) 3.14159
        ⟨-90, 0, 1⟩ 1 0 > 1 := by
    norm_num [solar_sin_beta, double_to_int, wrap32, day_angle, calculate_solar_declination,
      calculate_eqn_of_time, calculate_solar_noon, round_to_value, c_round,
      calculate_hour_angle, DEG2RAD]
  have h2 : (2.0 : ℚ) = 2 := by norm_num
  exact ⟨⟨ha, (C8_cos_zenith_clamped _ _ _ 3.14159 ⟨0, 0, 0, 0, 0, 0, 0, 0⟩ ⟨0, 0, 1⟩ 1 24
      _ _ _ _ _ rfl rfl rfl rfl (by simp only [solar_sin_beta, h2])).2.2.1 ha⟩,
    ⟨hb, (C8_cos_zenith_clamped _ _ _ 3.14159 ⟨0, 0, 0, 0, 0, 0, 0, 0⟩ ⟨0, 0, 1⟩ 1 0
      _ _ _ _ _ rfl rfl rfl rfl (by simp only [solar_sin_beta, h2])).2.2.2.1 hb⟩,
    ⟨hc, (C8_cos_zenith_clamped _ _ _ 3.14159 ⟨0, 0, 0, 0, 0, 0, 0, 0⟩ ⟨-90, 0, 1⟩ 1 0
      _ _ _ _ _ rfl rfl rfl rfl (by simp only [solar_sin_beta, h2])).2.2.2.2.1 hc⟩⟩

/-- C9: with `So` fixed, the clearness index is monotone non-decreasing in the
shortwave irradiance: for every `So` and `sw1 <= sw2`,
`estimate_clearness(sw1, So) <= estimate_clearness(sw2, So)`. -/
theorem C9_clearness_monotone (So sw1 sw2 : α) (h : sw1 ≤ sw2) :
    estimate_clearness sw1 So ≤ estimate_clearness sw2 So :=
  estimate_clearness_mono So h

/-- Witness for C9 at `So = 849.126`, `sw1 = 200`, `sw2 = 500`. -/
theorem C9_clearness_monotone_witness :
    (200 : ℝ) ≤ 500 ∧
    estimate_clearness (200 : ℝ) 849.126 ≤ estimate_clearness (500 : ℝ) 849.126 :=
  ⟨by norm_num, C9_clearness_monotone 849.126 200 500 (by norm_num)⟩

/-- C10: with `doy` and `cos_zenith` in `[0,1]` fixed, increasing the
shortwave irradiance never increases the diffuse fraction: for `sw1 <= sw2`,
`diffuse_frac` after `spitters(cw, doy, sw2)` is at most `diffuse_frac` after
`spitters(cw, doy, sw1)`; and `K > 0.35` for every `cos_zenith` in
`(0.17, 1]`. -/
theorem C10_diffuse_frac_antitone (cos : α → α) (M_PI : α) (cw : canopy_wk α) (doy : ℤ)
    (sw1 sw2 : α) (hc0 : 0 ≤ cw.cos_zenith) (hc1 : cw.cos_zenith ≤ 1) (h : sw1 ≤ sw2) :
    (spitters cos M_PI cw doy sw2).diffuse_frac ≤
      (spitters cos M_PI cw doy sw1).diffuse_frac ∧
    (0.17 < cw.cos_zenith →
      (1.47 - (0.847 - 1.61 * cw.cos_zenith + 1.04 * cw.cos_zenith ^ 2)) / 1.66 > 0.35) := by
  refine ⟨?_, ?_⟩
  · rw [spitters_diffuse_frac, spitters_diffuse_frac]
    exact spitters_clamp_mono
      (spitters_formula_antitone _ _ _ hc0 hc1 (estimate_clearness_mono _ h))
  · intro _
    have hR := spitters_R_lt cw.cos_zenith hc0 hc1
    rw [gt_iff_lt, lt_div_iff₀ (by norm_num)]
    norm_num at hR ⊢
    linarith

/-- Witness for C10 at `cos_zenith = 0.6`, `doy = 0`, `sw1 = 509.4756` and
`sw2 = 849.126` (clearness indices `0.3` and `0.5`). -/
theorem C10_diffuse_frac_antitone_witness :
    (0 ≤ (⟨0.6, 0, 0, 0, 0, 0, 0, 0⟩ : canopy_wk ℝ).cos_zenith ∧
      (⟨0.6, 0, 0, 0, 0, 0, 0, 0⟩ : canopy_wk ℝ).cos_zenith ≤ 1 ∧
      (509.4756 : ℝ) ≤ 849.126 ∧
      0.17 < (⟨0.6, 0, 0, 0, 0, 0, 0, 0⟩ : canopy_wk ℝ).cos_zenith) ∧
    (spitters Real.cos Real.pi (⟨0.6, 0, 0, 0, 0, 0, 0, 0⟩ : canopy_wk ℝ) 0
        849.126).diffuse_frac ≤
      (spitters Real.cos Real.pi (⟨0.6, 0, 0, 0, 0, 0, 0, 0⟩ : canopy_wk ℝ) 0
        509.4756).diffuse_frac ∧
    (1.47 - (0.847 - 1.61 * (⟨0.6, 0, 0, 0, 0, 0, 0, 0⟩ : canopy_wk ℝ).cos_zenith +
      1.04 * (⟨0.6, 0, 0, 0, 0, 0, 0, 0⟩ : canopy_wk ℝ).cos_zenith ^ 2)) / 1.66 > 0.35 :=
  ⟨⟨by norm_num, by norm_num, by norm_num, by norm_num⟩,
   (C10_diffuse_frac_antitone Real.cos Real.pi ⟨0.6, 0, 0, 0, 0, 0, 0, 0⟩ 0 509.4756 849.126
     (by norm_num) (by norm_num) (by norm_num)).1,
   (C10_diffuse_frac_antitone Real.cos Real.pi ⟨0.6, 0, 0, 0, 0, 0, 0, 0⟩ 0 509.4756 849.126
     (by norm_num) (by norm_num) (by norm_num)).2 (by norm_num)⟩

/-- Inside the range of a C `int` the 32-bit wraparound is the identity. -/
theorem wrap32_of_in_range (n : ℤ) (h0 : -2147483648 ≤ n) (h1 : n ≤ 2147483647) :
    wrap32 n = n := by
  unfold wrap32
  norm_num
  omega

/-- The day angle advances by `2 * M_PI` over 365 days. -/
theorem day_angle_add_365 {α : Type} [LinearOrderedField α] (M_PI : α) (doy : ℤ) :
    day_angle M_PI (doy + 365) = day_angle M_PI doy + 2 * M_PI := by
  simp only [day_angle]
  push_cast
  norm_num
  ring

/-- C11 (as stated, refuted): `doy = 2147483274` and `doy + 365 = 2147483639`
are both values of a C `int`, but in `calculate_solar_declination` the `int`
sum `doy + 365 + 10` exceeds `INT_MAX` and wraps to `-2147483647`, so the
declination of `doy + 365` is `-23.4*(pi/180)*cos(2*pi*58/365)` while that of
`doy` is `-23.4*(pi/180)*cos(2*pi*56/365)`. -/
theorem C11_periodicity_counterexample :
    calculate_solar_declination Real.cos Real.pi (2147483274 + 365) 0 ≠
      calculate_solar_declination Real.cos Real.pi 2147483274 0 := by
  have hw1 : wrap32 (2147483274 + 365 + 10) = -2147483647 := by
    unfold wrap32; norm_num
  have hw2 : wrap32 (2147483274 + 10) = 2147483284 := by
    unfold wrap32; norm_num
  have hpi := Real.pi_pos
  have e1 : Real.cos (2.0 * Real.pi * ((-2147483647 : ℤ) : ℝ) / 365) =
      Real.cos (2 * Real.pi * 58 / 365) := by
    have : (2.0 : ℝ) * Real.pi * ((-2147483647 : ℤ) : ℝ) / 365 =
        2 * Real.pi * 58 / 365 - (5883517 : ℕ) * (2 * Real.pi) := by
      push_cast; norm_num; ring
    rw [this, Real.cos_sub_nat_mul_two_pi]
  have e2 : Real.cos (2.0 * Real.pi * ((2147483284 : ℤ) : ℝ) / 365) =
      Real.cos (2 * Real.pi * 56 / 365) := by
    have : (2.0 : ℝ) * Real.pi * ((2147483284 : ℤ) : ℝ) / 365 =
        -(2 * Real.pi * 56 / 365) + (5883516 : ℕ) * (2 * Real.pi) := by
      push_cast; norm_num; ring
    rw [this, Real.cos_add_nat_mul_two_pi, Real.cos_neg]
  have hlt : Real.cos (2 * Real.pi * 58 / 365) < Real.cos (2 * Real.pi * 56 / 365) := by
    apply Real.cos_lt_cos_of_nonneg_of_le_pi
    · positivity
    · rw [div_le_iff₀ (by norm_num)]; nlinarith
    · exact div_lt_div_of_pos_right (by nlinarith) (by norm_num)
  simp only [calculate_solar_declination, hw1, hw2, e1, e2]
  intro h
  have h3 : (-23.4 : ℝ) * (Real.pi / 180) ≠ 0 := by
    apply mul_ne_zero (by norm_num)
    positivity
  exact hlt.ne (mul_left_cancel₀ h3 h)

/-- C11 (amended): for every `int` `doy` whose sums `doy + 10` and
`doy + 365 + 10` are values of a C `int`, and any `g`,
`calculate_solar_declination(doy + 365, g) = calculate_solar_declination(doy, g)`;
for every `doy`, `day_angle(doy + 365) = day_angle(doy) + 2*pi` and
`calculate_eqn_of_time(day_angle(doy + 365)) = calculate_eqn_of_time(day_angle(doy))`. -/
theorem C11_periodicity (doy : ℤ) (g : ℝ) :
    (-2147483648 ≤ doy + 10 → doy + 365 + 10 ≤ 2147483647 →
      calculate_solar_declination Real.cos Real.pi (doy + 365) g =
        calculate_solar_declination Real.cos Real.pi doy g) ∧
    day_angle Real.pi (doy + 365) = day_angle Real.pi doy + 2 * Real.pi ∧
    calculate_eqn_of_time Real.sin Real.cos (day_angle Real.pi (doy + 365)) =
      calculate_eqn_of_time Real.sin Real.cos (day_angle Real.pi doy) := by
  refine ⟨?_, day_angle_add_365 Real.pi doy, ?_⟩
  · intro h0 h1
    have hw1 : wrap32 (doy + 365 + 10) = doy + 10 + 365 := by
      rw [wrap32_of_in_range _ (by omega) h1]; ring
    have hw2 : wrap32 (doy + 10) = doy + 10 := wrap32_of_in_range _ h0 (by omega)
    simp only [calculate_solar_declination, hw1, hw2]
    have : (2.0 : ℝ) * Real.pi * ((doy + 10 + 365 : ℤ) : ℝ) / 365 =
        2.0 * Real.pi * ((doy + 10 : ℤ) : ℝ) / 365 + 2 * Real.pi := by
      push_cast; ring
    rw [this, Real.cos_add_two_pi]
  · rw [day_angle_add_365]
    simp only [calculate_eqn_of_time]
    have : (2.0 : ℝ) * (day_angle Real.pi doy + 2 * Real.pi) =
        2.0 * day_angle Real.pi doy + (2 : ℕ) * (2 * Real.pi) := by
      push_cast; ring
    rw [this, Real.cos_add_nat_mul_two_pi, Real.cos_add_two_pi, Real.sin_add_two_pi]

/-- Witness for C11 (amended): the declination at `doy = 172`, `g = 0`, where
the sums are in range, and the day angle and the equation of time at
`doy = 2147483274`, where the `int` sum of the declination wraps. -/
theorem C11_periodicity_witness :
    (((-2147483648 : ℤ) ≤ 172 + 10 ∧ (172 : ℤ) + 365 + 10 ≤ 2147483647) ∧
      calculate_solar_declination Real.cos Real.pi (172 + 365) 0 =
        calculate_solar_declination Real.cos Real.pi 172 0) ∧
    day_angle Real.pi (2147483274 + 365) = day_angle Real.pi 2147483274 + 2 * Real.pi ∧
    calculate_eqn_of_time Real.sin Real.cos (day_angle Real.pi (2147483274 + 365)) =
      calculate_eqn_of_time Real.sin Real.cos (day_angle Real.pi 2147483274) :=
  ⟨⟨⟨by norm_num, by norm_num⟩, (C11_periodicity 172 0).1 (by norm_num) (by norm_num)⟩,
   (C11_periodicity 2147483274 0).2⟩

/-- With the real cosine the extra-terrestrial radiation is positive whenever
the sun is above the horizon. -/
theorem calc_extra_terrestrial_rad_pos (doy c : ℝ) (hc : 0 < c) :
    0 < calc_extra_terrestrial_rad Real.cos Real.pi doy c := by
  have h0 : c > (0.0 : ℝ) := by norm_num; exact hc
  simp only [calc_extra_terrestrial_rad, if_pos h0]
  have h1 := Real.neg_one_le_cos (doy / 365.0 * 2.0 * Real.pi)
  have h2 : (0 : ℝ) < 1.0 + 0.033 * Real.cos (doy / 365.0 * 2.0 * Real.pi) := by
    norm_num
    linarith
  have h3 : (0 : ℝ) < 1370.0 := by norm_num
  exact mul_pos (mul_pos h3 h2) hc

/-- C12: for `cos_zenith = 0.6` and any `doy` and `sw_rad` whose clearness
index is `0.30`, `spitters` sets `diffuse_frac = 1 - 6.4*(0.08)^2 = 0.95904`
and `direct_frac = 0.04096`; and `sw_rad = 0.6 * So`, with `So` the
extra-terrestrial radiation of the day, is such an input for every `doy`. -/
theorem C12_scenario_three (cw : canopy_wk ℝ) (doy : ℤ) (hc : cw.cos_zenith = 0.6) :
    (∀ sw_rad : ℝ,
      estimate_clearness sw_rad
          (calc_extra_terrestrial_rad Real.cos Real.pi (doy : ℝ) cw.cos_zenith) = 0.30 →
        (spitters Real.cos Real.pi cw doy sw_rad).diffuse_frac = 1 - 6.4 * 0.08 ^ 2 ∧
        (spitters Real.cos Real.pi cw doy sw_rad).diffuse_frac = 0.95904 ∧
        (spitters Real.cos Real.pi cw doy sw_rad).direct_frac = 0.04096) ∧
    estimate_clearness
        (0.6 * calc_extra_terrestrial_rad Real.cos Real.pi (doy : ℝ) cw.cos_zenith)
        (calc_extra_terrestrial_rad Real.cos Real.pi (doy : ℝ) cw.cos_zenith) = 0.30 := by
  refine ⟨?_, ?_⟩
  · intro sw_rad h
    have hdf : (spitters Real.cos Real.pi cw doy sw_rad).diffuse_frac = 0.95904 := by
      rw [spitters_diffuse_frac, h, hc]
      norm_num [spitters_formula, spitters_clamp]
    refine ⟨?_, hdf, ?_⟩
    · rw [hdf]; norm_num
    · rw [spitters_direct_frac, hdf]; norm_num
  · have hpos := calc_extra_terrestrial_rad_pos (doy : ℝ) cw.cos_zenith (by rw [hc]; norm_num)
    generalize calc_extra_terrestrial_rad Real.cos Real.pi (doy : ℝ) cw.cos_zenith = So at hpos
    have h1 : ¬ So ≤ (0.0 : ℝ) := by norm_num; exact hpos
    have h2 : 0.6 * So * 0.5 / So = (0.3 : ℝ) := by
      field_simp
      ring
    simp only [estimate_clearness, if_neg h1, h2]
    norm_num

/-- Witness for C12 at `doy = 0`, where `So = 849.126` and
`sw_rad = 509.4756`. -/
theorem C12_scenario_three_witness :
    ((⟨0.6, 0, 0, 0, 0, 0, 0, 0⟩ : canopy_wk ℝ).cos_zenith = 0.6 ∧
      estimate_clearness (509.4756 : ℝ)
        (calc_extra_terrestrial_rad Real.cos Real.pi ((0 : ℤ) : ℝ)
          (⟨0.6, 0, 0, 0, 0, 0, 0, 0⟩ : canopy_wk ℝ).cos_zenith) = 0.30) ∧
    (spitters Real.cos Real.pi (⟨0.6, 0, 0, 0, 0, 0, 0, 0⟩ : canopy_wk ℝ) 0
      509.4756).diffuse_frac = 0.95904 ∧
    (spitters Real.cos Real.pi (⟨0.6, 0, 0, 0, 0, 0, 0, 0⟩ : canopy_wk ℝ) 0
      509.4756).direct_frac = 0.04096 :=
  ⟨⟨rfl, by norm_num [estimate_clearness, calc_extra_terrestrial_rad]⟩,
   ((C12_scenario_three ⟨0.6, 0, 0, 0, 0, 0, 0, 0⟩ 0 rfl).1 509.4756
     (by norm_num [estimate_clearness, calc_extra_terrestrial_rad])).2⟩

/-- C13: the result of `calculate_absorbed_radiation` does not depend on the
leaf-angle-distribution parameter: for two `params` records that differ only
in `lad`, and the same `cw`, `state` and `par`, the two calls return the same
result, so `apar_leaf[SUNLIT]`, `apar_leaf[SHADED]`, `lai_leaf[SUNLIT]` and
`lai_leaf[SHADED]` are equal. -/
theorem C13_lad_unused {α : Type} [LinearOrderedField α] (exp : α → α) (cw : canopy_wk α)
    (p1 p2 : params α) (s : state α) (par : α) (_hlat : p1.latitude = p2.latitude)
    (_hlon : p1.longitude = p2.longitude) :
    calculate_absorbed_radiation exp cw p1 s par =
      calculate_absorbed_radiation exp cw p2 s par ∧
    ∀ cw1 cw2 : canopy_wk α,
      calculate_absorbed_radiation exp cw p1 s par = some cw1 →
      calculate_absorbed_radiation exp cw p2 s par = some cw2 →
        cw1.apar_leaf_SUNLIT = cw2.apar_leaf_SUNLIT ∧
        cw1.apar_leaf_SHADED = cw2.apar_leaf_SHADED ∧
        cw1.lai_leaf_SUNLIT = cw2.lai_leaf_SUNLIT ∧
        cw1.lai_leaf_SHADED = cw2.lai_leaf_SHADED := by
  have h : calculate_absorbed_radiation exp cw p1 s par =
      calculate_absorbed_radiation exp cw p2 s par := rfl
  refine ⟨h, ?_⟩
  intro cw1 cw2 h1 h2
  rw [h, h2] at h1
  cases h1
  exact ⟨rfl, rfl, rfl, rfl⟩

/-- Witness for C13 over `ℚ` with `1 + x + x^2/2` standing for `exp`:
`lad = 1` and `lad = 5` at `cos_zenith = 0.5`, `lai = 2`, `par = 100`. -/
theorem C13_lad_unused_witness :
    ((⟨45, 0, 1⟩ : params ℚ).latitude = (⟨45, 0, 5⟩ : params ℚ).latitude ∧
      (⟨45, 0, 1⟩ : params ℚ).longitude = (⟨45, 0, 5⟩ : params ℚ).longitude ∧
      (⟨45, 0, 1⟩ : params ℚ).lad ≠ (⟨45, 0, 5⟩ : params ℚ).lad ∧
      (calculate_absorbed_radiation (fun x : ℚ => 1 + x + x ^ 2 / 2)
        ⟨0.5, 30, 0.4, 0.6, 0, 0, 0, 0⟩ ⟨45, 0, 1⟩ ⟨2⟩ 100).isSome = true) ∧
    calculate_absorbed_radiation (fun x : ℚ => 1 + x + x ^ 2 / 2)
        ⟨0.5, 30, 0.4, 0.6, 0, 0, 0, 0⟩ ⟨45, 0, 1⟩ ⟨2⟩ 100 =
      calculate_absorbed_radiation (fun x : ℚ => 1 + x + x ^ 2 / 2)
        ⟨0.5, 30, 0.4, 0.6, 0, 0, 0, 0⟩ ⟨45, 0, 5⟩ ⟨2⟩ 100 :=
  ⟨⟨rfl, rfl, by norm_num, by norm_num [calculate_absorbed_radiation]⟩,
   (C13_lad_unused (fun x : ℚ => 1 + x + x ^ 2 / 2) ⟨0.5, 30, 0.4, 0.6, 0, 0, 0, 0⟩
     ⟨45, 0, 1⟩ ⟨45, 0, 5⟩ ⟨2⟩ 100 rfl rfl).1⟩

/-- The result of `calculate_absorbed_radiation` is determined by the fields
`cos_zenith`, `elevation`, `diffuse_frac` and `direct_frac` of its input record. -/
theorem calculate_absorbed_radiation_congr {α : Type} [LinearOrderedField α] (exp : α → α)
    (cw1 cw2 : canopy_wk α) (p : params α) (s : state α) (par : α)
    (hc : cw1.cos_zenith = cw2.cos_zenith) (he : cw1.elevation = cw2.elevation)
    (hdf : cw1.diffuse_frac = cw2.diffuse_frac) (hdr : cw1.direct_frac = cw2.direct_frac) :
    calculate_absorbed_radiation exp cw1 p s par =
      calculate_absorbed_radiation exp cw2 p s par := by
  cases cw1
  cases cw2
  simp only at hc he hdf hdr
  subst hc he hdf hdr
  rfl

/-- The four fields written by `calculate_absorbed_radiation` are determined by
the fields `cos_zenith`, `diffuse_frac` and `direct_frac` of its input record. -/
theorem calculate_absorbed_radiation_reads {α : Type} [LinearOrderedField α] (exp : α → α)
    (cw1 cw2 : canopy_wk α) (p : params α) (s : state α) (par : α)
    (hc : cw1.cos_zenith = cw2.cos_zenith)
    (hdf : cw1.diffuse_frac = cw2.diffuse_frac) (hdr : cw1.direct_frac = cw2.direct_frac) :
    (calculate_absorbed_radiation exp cw1 p s par).map
        (fun c => (c.apar_leaf_SUNLIT, c.apar_leaf_SHADED, c.lai_leaf_SUNLIT,
          c.lai_leaf_SHADED)) =
      (calculate_absorbed_radiation exp cw2 p s par).map
        (fun c => (c.apar_leaf_SUNLIT, c.apar_leaf_SHADED, c.lai_leaf_SUNLIT,
          c.lai_leaf_SHADED)) := by
  simp only [calculate_absorbed_radiation, hc, hdf, hdr]
  split_ifs <;> rfl

/-- The fields `cos_zenith`, `elevation`, `diffuse_frac` and `direct_frac` are
not changed by `calculate_absorbed_radiation`. -/
theorem calculate_absorbed_radiation_keeps {α : Type} [LinearOrderedField α] (exp : α → α)
    (cw cw' : canopy_wk α) (p : params α) (s : state α) (par : α)
    (h : calculate_absorbed_radiation exp cw p s par = some cw') :
    cw'.cos_zenith = cw.cos_zenith ∧ cw'.elevation = cw.elevation ∧
    cw'.diffuse_frac = cw.diffuse_frac ∧ cw'.direct_frac = cw.direct_frac := by
  simp only [calculate_absorbed_radiation] at h
  split_ifs at h
  cases h
  exact ⟨rfl, rfl, rfl, rfl⟩

/-- C14: running `calculate_solar_geometry`, then `spitters`, then
`calculate_absorbed_radiation` gives a result that depends only on the scalar
inputs, not on the initial contents of `cw`: two runs from records `cwA` and
`cwB` return the same final record (or both none).  Stage by stage:
`calculate_solar_geometry` computes `cos_zenith` and `elevation` without
reading `cw` and keeps the other fields; `spitters` reads only `cos_zenith` and
keeps all fields but `diffuse_frac` and `direct_frac`;
`calculate_absorbed_radiation` reads only `cos_zenith`, `direct_frac` and
`diffuse_frac` and keeps those and `elevation`. -/
theorem C14_memoryless {α : Type} [LinearOrderedField α] [FloorRing α]
    (sin cos acos exp : α → α) (M_PI : α) (cwA cwB : canopy_wk α) (p : params α)
    (s : state α) (doy : ℤ) (hod sw_rad par : α) :
    calculate_absorbed_radiation exp
        (spitters cos M_PI (calculate_solar_geometry sin cos acos M_PI cwA p (doy : α) hod)
          doy sw_rad) p s par =
      calculate_absorbed_radiation exp
        (spitters cos M_PI (calculate_solar_geometry sin cos acos M_PI cwB p (doy : α) hod)
          doy sw_rad) p s par ∧
    ((calculate_solar_geometry sin cos acos M_PI cwA p (doy : α) hod).cos_zenith =
        (calculate_solar_geometry sin cos acos M_PI cwB p (doy : α) hod).cos_zenith ∧
      (calculate_solar_geometry sin cos acos M_PI cwA p (doy : α) hod).elevation =
        (calculate_solar_geometry sin cos acos M_PI cwB p (doy : α) hod).elevation ∧
      (calculate_solar_geometry sin cos acos M_PI cwA p (doy : α) hod).diffuse_frac =
        cwA.diffuse_frac ∧
      (calculate_solar_geometry sin cos acos M_PI cwA p (doy : α) hod).direct_frac =
        cwA.direct_frac ∧
      (calculate_solar_geometry sin cos acos M_PI cwA p (doy : α) hod).apar_leaf_SUNLIT =
        cwA.apar_leaf_SUNLIT ∧
      (calculate_solar_geometry sin cos acos M_PI cwA p (doy : α) hod).apar_leaf_SHADED =
        cwA.apar_leaf_SHADED ∧
      (calculate_solar_geometry sin cos acos M_PI cwA p (doy : α) hod).lai_leaf_SUNLIT =
        cwA.lai_leaf_SUNLIT ∧
      (calculate_solar_geometry sin cos acos M_PI cwA p (doy : α) hod).lai_leaf_SHADED =
        cwA.lai_leaf_SHADED) ∧
    (∀ cw1 cw2 : canopy_wk α, cw1.cos_zenith = cw2.cos_zenith →
      (spitters cos M_PI cw1 doy sw_rad).diffuse_frac =
        (spitters cos M_PI cw2 doy sw_rad).diffuse_frac ∧
      (spitters cos M_PI cw1 doy sw_rad).direct_frac =
        (spitters cos M_PI cw2 doy sw_rad).direct_frac) ∧
    (∀ cw : canopy_wk α,
      (spitters cos M_PI cw doy sw_rad).cos_zenith = cw.cos_zenith ∧
      (spitters cos M_PI cw doy sw_rad).elevation = cw.elevation ∧
      (spitters cos M_PI cw doy sw_rad).apar_leaf_SUNLIT = cw.apar_leaf_SUNLIT ∧
      (spitters cos M_PI cw doy sw_rad).apar_leaf_SHADED = cw.apar_leaf_SHADED ∧
      (spitters cos M_PI cw doy sw_rad).lai_leaf_SUNLIT = cw.lai_leaf_SUNLIT ∧
      (spitters cos M_PI cw doy sw_rad).lai_leaf_SHADED = cw.lai_leaf_SHADED) ∧
    (∀ cw1 cw2 : canopy_wk α, cw1.cos_zenith = cw2.cos_zenith →
      cw1.diffuse_frac = cw2.diffuse_frac → cw1.direct_frac = cw2.direct_frac →
      (calculate_absorbed_radiation exp cw1 p s par).map
          (fun c => (c.apar_leaf_SUNLIT, c.apar_leaf_SHADED, c.lai_leaf_SUNLIT,
            c.lai_leaf_SHADED)) =
        (calculate_absorbed_radiation exp cw2 p s par).map
          (fun c => (c.apar_leaf_SUNLIT, c.apar_leaf_SHADED, c.lai_leaf_SUNLIT,
            c.lai_leaf_SHADED))) ∧
    (∀ cw cw' : canopy_wk α, calculate_absorbed_radiation exp cw p s par = some cw' →
      cw'.cos_zenith = cw.cos_zenith ∧ cw'.elevation = cw.elevation ∧
      cw'.diffuse_frac = cw.diffuse_frac ∧ cw'.direct_frac = cw.direct_frac) := by
  refine ⟨?_, ⟨rfl, rfl, rfl, rfl, rfl, rfl, rfl, rfl⟩, ?_, fun cw => ⟨rfl, rfl, rfl, rfl, rfl, rfl⟩,
    ?_, ?_⟩
  · exact calculate_absorbed_radiation_congr exp _ _ p s par rfl rfl rfl rfl
  · intro cw1 cw2 h
    rw [spitters_direct_frac, spitters_direct_frac, spitters_diffuse_frac,
      spitters_diffuse_frac, h]
    exact ⟨rfl, rfl⟩
  · intro cw1 cw2 hc hdf hdr
    exact calculate_absorbed_radiation_reads exp cw1 cw2 p s par hc hdf hdr
  · intro cw cw' h
    exact calculate_absorbed_radiation_keeps exp cw cw' p s par h

/-- Witness for C14 over `ℚ`, with `M_PI = 3.14159` and the truncated series
`x - x^3/6`, `1 - x^2/2`, `π/2 - x` and `1 + x + x^2/2` standing for `sin`,
`cos`, `acos` and `exp`: day 1, noon, latitude 0, `sw_rad = 500`, `par = 100`,
`lai = 2`, from an all-zero record and from an all-nine record. -/
theorem C14_memoryless_witness :
    ((calculate_absorbed_radiation (fun x : ℚ => 1 + x + x ^ 2 / 2)
        (spitters (fun x : ℚ => 1 - x ^ 2 / 2) 3.14159
          (calculate_solar_geometry (fun x : ℚ => x - x ^ 3 / 6) (fun x => 1 - x ^ 2 / 2)
            (fun x => 3.14159 / 2 - x) 3.14159 ⟨0, 0, 0, 0, 0, 0, 0, 0⟩ ⟨0, 0, 1⟩
            ((1 : ℤ) : ℚ) 24) 1 500) ⟨0, 0, 1⟩ ⟨2⟩ 100).isSome = true ∧
      calculate_absorbed_radiation (fun x : ℚ => 1 + x + x ^ 2 / 2)
        (spitters (fun x : ℚ => 1 - x ^ 2 / 2) 3.14159
          (calculate_solar_geometry (fun x : ℚ => x - x ^ 3 / 6) (fun x => 1 - x ^ 2 / 2)
            (fun x => 3.14159 / 2 - x) 3.14159 ⟨0, 0, 0, 0, 0, 0, 0, 0⟩ ⟨0, 0, 1⟩
            ((1 : ℤ) : ℚ) 24) 1 500) ⟨0, 0, 1⟩ ⟨2⟩ 100 =
      calculate_absorbed_radiation (fun x : ℚ => 1 + x + x ^ 2 / 2)
        (spitters (fun x : ℚ => 1 - x ^ 2 / 2) 3.14159
          (calculate_solar_geometry (fun x : ℚ => x - x ^ 3 / 6) (fun x => 1 - x ^ 2 / 2)
            (fun x => 3.14159 / 2 - x) 3.14159 ⟨9, 9, 9, 9, 9, 9, 9, 9⟩ ⟨0, 0, 1⟩
            ((1 : ℤ) : ℚ) 24) 1 500) ⟨0, 0, 1⟩ ⟨2⟩ 100) ∧
    ((⟨0.6, 0, 0, 0, 0, 0, 0, 0⟩ : canopy_wk ℚ).cos_zenith =
        (⟨0.6, 9, 9, 9, 9, 9, 9, 9⟩ : canopy_wk ℚ).cos_zenith ∧
      (spitters (fun x : ℚ => 1 - x ^ 2 / 2) 3.14159 ⟨0.6, 0, 0, 0, 0, 0, 0, 0⟩ 1
          500).diffuse_frac =
        (spitters (fun x : ℚ => 1 - x ^ 2 / 2) 3.14159 ⟨0.6, 9, 9, 9, 9, 9, 9, 9⟩ 1
          500).diffuse_frac) ∧
    (∃ cw', calculate_absorbed_radiation (fun x : ℚ => 1 + x + x ^ 2 / 2)
        ⟨0.5, 30, 0.4, 0.6, 0, 0, 0, 0⟩ ⟨0, 0, 1⟩ ⟨2⟩ 100 = some cw' ∧
      cw'.cos_zenith = 0.5 ∧ cw'.elevation = 30 ∧ cw'.diffuse_frac = 0.4 ∧
      cw'.direct_frac = 0.6) := by
  refine ⟨⟨?_, (C14_memoryless (fun x : ℚ => x - x ^ 3 / 6) (fun x => 1 - x ^ 2 / 2)
      (fun x => 3.14159 / 2 - x) (fun x => 1 + x + x ^ 2 / 2) 3.14159
      ⟨0, 0, 0, 0, 0, 0, 0, 0⟩ ⟨9, 9, 9, 9, 9, 9, 9, 9⟩ ⟨0, 0, 1⟩ ⟨2⟩ 1 24 500 100).1⟩,
    ⟨rfl, ((C14_memoryless (fun x : ℚ => x - x ^ 3 / 6) (fun x => 1 - x ^ 2 / 2)
      (fun x => 3.14159 / 2 - x) (fun x => 1 + x + x ^ 2 / 2) 3.14159
      ⟨0, 0, 0, 0, 0, 0, 0, 0⟩ ⟨9, 9, 9, 9, 9, 9, 9, 9⟩ ⟨0, 0, 1⟩ ⟨2⟩ 1 24 500 100).2.2.1
        ⟨0.6, 0, 0, 0, 0, 0, 0, 0⟩ ⟨0.6, 9, 9, 9, 9, 9, 9, 9⟩ rfl).1⟩, ?_⟩
  · have hsb : solar_sin_beta (fun x : ℚ => x - x ^ 3 / 6) (fun x => 1 - x ^ 2 / 2) 3.14159
        ⟨0, 0, 1⟩ ((1 : ℤ) : ℚ) 24 =
        84602704277866485339853426127395984085319652946302781472154044708089 /
          92010300840000000000000000000000000000000000000000000000000000000000 := by
      norm_num [solar_sin_beta, double_to_int, wrap32, day_angle,
        calculate_solar_declination, calculate_eqn_of_time, calculate_solar_noon,
        round_to_value, c_round, calculate_hour_angle, DEG2RAD]
    simp only [spitters, calculate_solar_geometry, hsb]
    norm_num [calculate_absorbed_radiation, cos_zenith_clamp]
  · obtain ⟨cw', h, -⟩ := calculate_absorbed_radiation_eq_some
      (fun x : ℚ => 1 + x + x ^ 2 / 2) ⟨0.5, 30, 0.4, 0.6, 0, 0, 0, 0⟩ ⟨0, 0, 1⟩ ⟨2⟩ 100
      (by norm_num) (by norm_num)
    have hk := (C14_memoryless (fun x : ℚ => x - x ^ 3 / 6) (fun x => 1 - x ^ 2 / 2)
      (fun x => 3.14159 / 2 - x) (fun x => 1 + x + x ^ 2 / 2) 3.14159
      ⟨0, 0, 0, 0, 0, 0, 0, 0⟩ ⟨9, 9, 9, 9, 9, 9, 9, 9⟩ ⟨0, 0, 1⟩ ⟨2⟩ 1 24 500 100).2.2.2.2.2
      ⟨0.5, 30, 0.4, 0.6, 0, 0, 0, 0⟩ cw' h
    exact ⟨cw', h, hk.1, hk.2.1, hk.2.2.1, hk.2.2.2⟩

/-- C16 (as stated, refuted): at `cos_zenith = 0.6` the quantity `R` of
`spitters` is `0.847 - 0.966 + 0.3744 = 0.2554`, not `0.24916`, and `K` is
`1.2146 / 1.66`, about `0.7317`, not `0.7355`; for `doy = 0` and
`sw_rad = 1358.6016` the clearness index is `0.8 > K` and the resulting
`diffuse_frac` is `0.2554`, not `0.24916`. -/
theorem C16_R_and_K_counterexample :
    (0.847 - 1.61 * 0.6 + 1.04 * (0.6 * 0.6) : ℝ) ≠ 0.24916 ∧
    ¬ ((0.73545 : ℝ) ≤ (1.47 - (0.847 - 1.61 * 0.6 + 1.04 * (0.6 * 0.6))) / 1.66 ∧
      (1.47 - (0.847 - 1.61 * 0.6 + 1.04 * (0.6 * 0.6))) / 1.66 < (0.73555 : ℝ)) ∧
    estimate_clearness (1358.6016 : ℝ)
        (calc_extra_terrestrial_rad Real.cos Real.pi ((0 : ℤ) : ℝ)
          (⟨0.6, 0, 0, 0, 0, 0, 0, 0⟩ : canopy_wk ℝ).cos_zenith) >
      (1.47 - (0.847 - 1.61 * 0.6 + 1.04 * (0.6 * 0.6))) / 1.66 ∧
    (spitters Real.cos Real.pi (⟨0.6, 0, 0, 0, 0, 0, 0, 0⟩ : canopy_wk ℝ) 0
      1358.6016).diffuse_frac ≠ 0.24916 := by
  have htau : estimate_clearness (1358.6016 : ℝ)
      (calc_extra_terrestrial_rad Real.cos Real.pi ((0 : ℤ) : ℝ)
        (⟨0.6, 0, 0, 0, 0, 0, 0, 0⟩ : canopy_wk ℝ).cos_zenith) = 0.8 := by
    norm_num [estimate_clearness, calc_extra_terrestrial_rad]
  refine ⟨by norm_num, by norm_num, by rw [htau]; norm_num, ?_⟩
  rw [spitters_diffuse_frac, htau]
  norm_num [spitters_formula, spitters_clamp]

/-- C16 (amended): for `cos_zenith = 0.6` the quantities computed by
`spitters` are `R = 0.847 - 1.61*0.6 + 1.04*0.36 = 0.2554` and
`K = (1.47 - R)/1.66`, which is `0.7317` to four decimals; for
`cos_zenith = 0.6` and any clearness index `tau > K` the resulting
`diffuse_frac` is `0.2554`. -/
theorem C16_R_and_K {α : Type} [LinearOrderedField α] (cos : α → α) (M_PI : α)
    (cw : canopy_wk α) (doy : ℤ) (sw_rad R K : α) (hc : cw.cos_zenith = 0.6)
    (hR : R = 0.847 - 1.61 * cw.cos_zenith + 1.04 * (cw.cos_zenith * cw.cos_zenith))
    (hK : K = (1.47 - R) / 1.66) :
    R = 0.2554 ∧ 0.73165 ≤ K ∧ K < 0.73175 ∧
    (estimate_clearness sw_rad
        (calc_extra_terrestrial_rad cos M_PI (doy : α) cw.cos_zenith) > K →
      (spitters cos M_PI cw doy sw_rad).diffuse_frac = 0.2554) := by
  have hR' : R = 0.2554 := by rw [hR, hc]; norm_num
  have hK' : K = 6073 / 8300 := by rw [hK, hR']; norm_num
  refine ⟨hR', by rw [hK']; norm_num, by rw [hK']; norm_num, ?_⟩
  intro h
  rw [hK'] at h
  rw [spitters_diffuse_frac, spitters_formula_chain _ _ (by rw [hc]; norm_num), hc]
  have h1 : ¬ estimate_clearness sw_rad
      (calc_extra_terrestrial_rad cos M_PI (doy : α) (0.6 : α)) ≤ 11 / 50 := by
    rw [hc] at h
    exact not_le.mpr (lt_trans (by norm_num) h)
  have h2 : ¬ estimate_clearness sw_rad
      (calc_extra_terrestrial_rad cos M_PI (doy : α) (0.6 : α)) ≤ 7 / 20 := by
    rw [hc] at h
    exact not_le.mpr (lt_trans (by norm_num) h)
  have h3 : ¬ estimate_clearness sw_rad
      (calc_extra_terrestrial_rad cos M_PI (doy : α) (0.6 : α)) ≤
        (147 / 100 - (0.847 - 1.61 * 0.6 + 1.04 * (0.6 * 0.6))) / (83 / 50) := by
    rw [hc] at h
    refine not_le.mpr (lt_of_le_of_lt ?_ h)
    norm_num
  rw [if_neg h1, if_neg h2, if_neg h3]
  norm_num [spitters_clamp]

/-- Witness for C16 (amended) at `doy = 0`, `sw_rad = 1358.6016` (clearness
index `0.8`). -/
theorem C16_R_and_K_witness :
    ((⟨0.6, 0, 0, 0, 0, 0, 0, 0⟩ : canopy_wk ℝ).cos_zenith = 0.6 ∧
      estimate_clearness (1358.6016 : ℝ)
          (calc_extra_terrestrial_rad Real.cos Real.pi ((0 : ℤ) : ℝ)
            (⟨0.6, 0, 0, 0, 0, 0, 0, 0⟩ : canopy_wk ℝ).cos_zenith) >
        (1.47 - 0.2554) / 1.66) ∧
    (spitters Real.cos Real.pi (⟨0.6, 0, 0, 0, 0, 0, 0, 0⟩ : canopy_wk ℝ) 0
      1358.6016).diffuse_frac = 0.2554 :=
  ⟨⟨rfl, by norm_num [estimate_clearness, calc_extra_terrestrial_rad]⟩,
   (C16_R_and_K Real.cos Real.pi ⟨0.6, 0, 0, 0, 0, 0, 0, 0⟩ 0 1358.6016 0.2554
     ((1.47 - 0.2554) / 1.66) rfl (by norm_num) rfl).2.2.2
     (by norm_num [estimate_clearness, calc_extra_terrestrial_rad])⟩

/-- For `cos_zenith` in `[0,1]` the value assigned by the piecewise formula of
`spitters` is positive and at most `1`. -/
theorem spitters_formula_bounds {α : Type} [LinearOrderedField α] (c tau : α)
    (hc0 : 0 ≤ c) (hc1 : c ≤ 1) :
    0 < spitters_formula c tau ∧ spitters_formula c tau ≤ 1 := by
  by_cases hc : c > 0.17
  · rw [spitters_formula_chain c tau hc]
    have hR := spitters_R_lt c hc0 hc1
    have hR0 : (0 : α) < 0.847 - 1.61 * c + 1.04 * (c * c) := by
      norm_num
      nlinarith [mul_self_nonneg (c - 161 / 208)]
    generalize 0.847 - 1.61 * c + 1.04 * (c * c) = R at hR hR0 ⊢
    have hKR : (83 / 50 : α) * ((147 / 100 - R) / (83 / 50)) = 147 / 100 - R := by
      rw [mul_comm]; exact div_mul_cancel₀ _ (by norm_num)
    generalize (147 / 100 - R) / (83 / 50) = K at hKR ⊢
    split_ifs with h1 h2 h3
    · exact ⟨zero_lt_one, le_rfl⟩
    · have h := mul_nonneg (sub_pos.mpr (not_le.mp h1)).le (sub_nonneg.mpr h2)
      have h' := mul_self_nonneg (tau - 11 / 50)
      have h4 := not_le.mp h1
      constructor <;> linarith
    · have h4 := not_le.mp h2
      constructor <;> linarith
    · constructor <;> linarith
  · simp only [spitters_formula, if_neg hc]
    norm_num

/-- For `cos_zenith` in `[0,1]` the final clamp of `spitters` returns its
argument. -/
theorem spitters_clamp_formula {α : Type} [LinearOrderedField α] (c tau : α)
    (hc0 : 0 ≤ c) (hc1 : c ≤ 1) :
    spitters_clamp (spitters_formula c tau) = spitters_formula c tau := by
  obtain ⟨h0, h1⟩ := spitters_formula_bounds c tau hc0 hc1
  rw [spitters_clamp_eq_max_min, min_eq_right h1, max_eq_right h0.le]

/-- C17 (as stated, refuted): there is no `cos_zenith` in `[0,1]`, `doy` and
`sw_rad` for which the value assigned by the piecewise formula of `spitters`
lies outside `[0,1]`, nor for which the final clamp changes it. -/
theorem C17_clamp_needed_counterexample :
    ¬ ∃ (cw : canopy_wk ℝ) (doy : ℤ) (sw_rad : ℝ),
      0 ≤ cw.cos_zenith ∧ cw.cos_zenith ≤ 1 ∧
      (spitters_formula cw.cos_zenith (estimate_clearness sw_rad
          (calc_extra_terrestrial_rad Real.cos Real.pi (doy : ℝ) cw.cos_zenith)) < 0 ∨
        1 < spitters_formula cw.cos_zenith (estimate_clearness sw_rad
          (calc_extra_terrestrial_rad Real.cos Real.pi (doy : ℝ) cw.cos_zenith)) ∨
        (spitters Real.cos Real.pi cw doy sw_rad).diffuse_frac ≠
          spitters_formula cw.cos_zenith (estimate_clearness sw_rad
            (calc_extra_terrestrial_rad Real.cos Real.pi (doy : ℝ) cw.cos_zenith))) := by
  rintro ⟨cw, doy, sw_rad, hc0, hc1, h⟩
  obtain ⟨h0, h1⟩ := spitters_formula_bounds cw.cos_zenith (estimate_clearness sw_rad
    (calc_extra_terrestrial_rad Real.cos Real.pi (doy : ℝ) cw.cos_zenith)) hc0 hc1
  rcases h with h | h | h
  · exact absurd h (not_lt.mpr h0.le)
  · exact absurd h (not_lt.mpr h1)
  · apply h
    rw [spitters_diffuse_frac]
    exact spitters_clamp_formula _ _ hc0 hc1

/-- C17 (amended): for every `cos_zenith` in `[0,1]`, `doy` and `sw_rad` the
value assigned by the piecewise formula of `spitters` lies in `(0,1]` and the
final clamp leaves it unchanged; the formula overshoots only for `cos_zenith`
outside `[0,1]`, for instance `cos_zenith = 2` with clearness index `0.5`,
where it assigns `R = 1.787` and the clamp changes that to `1`. -/
theorem C17_clamp_inactive {α : Type} [LinearOrderedField α] (cos : α → α) (M_PI : α)
    (cw : canopy_wk α) (doy : ℤ) (sw_rad : α) (hc0 : 0 ≤ cw.cos_zenith)
    (hc1 : cw.cos_zenith ≤ 1) :
    (0 < spitters_formula cw.cos_zenith (estimate_clearness sw_rad
        (calc_extra_terrestrial_rad cos M_PI (doy : α) cw.cos_zenith)) ∧
      spitters_formula cw.cos_zenith (estimate_clearness sw_rad
        (calc_extra_terrestrial_rad cos M_PI (doy : α) cw.cos_zenith)) ≤ 1 ∧
      (spitters cos M_PI cw doy sw_rad).diffuse_frac =
        spitters_formula cw.cos_zenith (estimate_clearness sw_rad
          (calc_extra_terrestrial_rad cos M_PI (doy : α) cw.cos_zenith))) ∧
    (spitters_formula (2 : α) 0.5 = 1.787 ∧ spitters_clamp (1.787 : α) = 1) := by
  refine ⟨⟨(spitters_formula_bounds _ _ hc0 hc1).1, (spitters_formula_bounds _ _ hc0 hc1).2,
    ?_⟩, ?_, ?_⟩
  · rw [spitters_diffuse_frac]
    exact spitters_clamp_formula _ _ hc0 hc1
  · norm_num [spitters_formula]
  · norm_num [spitters_clamp]

/-- Witness for C17 (amended) at `cos_zenith = 1`, `doy = 0`,
`sw_rad = 2830.42` (clearness index `1`, where the formula assigns
`R = 0.277`). -/
theorem C17_clamp_inactive_witness :
    (0 ≤ (⟨1, 0, 0, 0, 0, 0, 0, 0⟩ : canopy_wk ℝ).cos_zenith ∧
      (⟨1, 0, 0, 0, 0, 0, 0, 0⟩ : canopy_wk ℝ).cos_zenith ≤ 1) ∧
    (spitters Real.cos Real.pi (⟨1, 0, 0, 0, 0, 0, 0, 0⟩ : canopy_wk ℝ) 0
        2830.42).diffuse_frac =
      spitters_formula (⟨1, 0, 0, 0, 0, 0, 0, 0⟩ : canopy_wk ℝ).cos_zenith
        (estimate_clearness (2830.42 : ℝ)
          (calc_extra_terrestrial_rad Real.cos Real.pi ((0 : ℤ) : ℝ)
            (⟨1, 0, 0, 0, 0, 0, 0, 0⟩ : canopy_wk ℝ).cos_zenith)) :=
  ⟨⟨by norm_num, by norm_num⟩,
   (C17_clamp_inactive Real.cos Real.pi ⟨1, 0, 0, 0, 0, 0, 0, 0⟩ 0 2830.42
     (by norm_num) (by norm_num)).1.2.2⟩

/-- C18: `calculate_absorbed_radiation` divides by `cos_zenith` without a
guard.  For every `cos_zenith > 0` and every `lai`, `par` and fractions, the
divisors `cos_zenith`, `k_dash_d + kb`, `k_dash_b + kb` and `kb` are nonzero
and the function returns; for `cos_zenith = 0` the divisor of `kb` and
`k_dash_b` is zero whatever the other inputs are, and no result is produced;
and `calculate_solar_geometry` stores `cos_zenith = 0` whenever
`sin_beta <= 0`. -/
theorem C18_unguarded_division {α : Type} [LinearOrderedField α] [FloorRing α]
    (sin cos acos exp : α → α) (M_PI : α) :
    (∀ (cw : canopy_wk α) (p : params α) (s : state α) (par : α), 0 < cw.cos_zenith →
      cw.cos_zenith ≠ 0 ∧ (0.718 : α) + 0.5 / cw.cos_zenith ≠ 0 ∧
      (0.46 : α) / cw.cos_zenith + 0.5 / cw.cos_zenith ≠ 0 ∧
      (0.5 : α) / cw.cos_zenith ≠ 0 ∧
      ∃ cw', calculate_absorbed_radiation exp cw p s par = some cw') ∧
    (∀ (cw : canopy_wk α) (p : params α) (s : state α) (par : α), cw.cos_zenith = 0 →
      calculate_absorbed_radiation exp cw p s par = none) ∧
    (∀ (cw : canopy_wk α) (p : params α) (doy hod : α),
      solar_sin_beta sin cos M_PI p doy hod ≤ 0 →
        (calculate_solar_geometry sin cos acos M_PI cw p doy hod).cos_zenith = 0) := by
  refine ⟨?_, ?_, ?_⟩
  · intro cw p s par hc
    have h1 : (0 : α) < 0.5 / cw.cos_zenith := div_pos (by norm_num) hc
    have h2 : (0 : α) < 0.46 / cw.cos_zenith := div_pos (by norm_num) hc
    have h3 : (0.718 : α) + 0.5 / cw.cos_zenith ≠ 0 := (add_pos (by norm_num) h1).ne'
    obtain ⟨cw', h, -⟩ := calculate_absorbed_radiation_eq_some exp cw p s par hc.ne' h3
    exact ⟨hc.ne', h3, (add_pos h2 h1).ne', h1.ne', cw', h⟩
  · intro cw p s par hc
    simp only [calculate_absorbed_radiation, if_pos hc]
  · intro cw p doy hod h
    have h1 : ¬ solar_sin_beta sin cos M_PI p doy hod > 1.0 := by
      norm_num
      exact h.trans zero_le_one
    simp only [calculate_solar_geometry, cos_zenith_clamp, if_neg h1]
    split_ifs with h2
    · norm_num
    · have h3 : (0.0 : α) = 0 := by norm_num
      rw [h3] at h2
      exact le_antisymm h (not_lt.mp h2)
/-- Witness for C18 over `ℚ`, with `M_PI = 3.14159` and the truncated series
`x - x^3/6`, `1 - x^2/2`, `π/2 - x` and `1 + x + x^2/2` standing for `sin`,
`cos`, `acos` and `exp`: `cos_zenith = 0.5`, `cos_zenith = 0`, and day 1 at
midnight at latitude 0, where `sin_beta < 0`. -/
theorem C18_unguarded_division_witness :
    (0 < (⟨0.5, 30, 0.4, 0.6, 0, 0, 0, 0⟩ : canopy_wk ℚ).cos_zenith ∧
      ∃ cw', calculate_absorbed_radiation (fun x : ℚ => 1 + x + x ^ 2 / 2)
        ⟨0.5, 30, 0.4, 0.6, 0, 0, 0, 0⟩ ⟨0, 0, 1⟩ ⟨2⟩ 100 = some cw') ∧
    ((⟨0, 0, 1, 0, 0, 0, 0, 0⟩ : canopy_wk ℚ).cos_zenith = 0 ∧
      calculate_absorbed_radiation (fun x : ℚ => 1 + x + x ^ 2 / 2)
        ⟨0, 0, 1, 0, 0, 0, 0, 0⟩ ⟨0, 0, 1⟩ ⟨2⟩ 100 = none) ∧
    (solar_sin_beta (fun x : ℚ => x - x ^ 3 / 6) (fun x => 1 - x ^ 2 / 2) 3.14159
        ⟨0, 0, 1⟩ 1 0 ≤ 0 ∧
      (calculate_solar_geometry (fun x : ℚ => x - x ^ 3 / 6) (fun x => 1 - x ^ 2 / 2)
        (fun x => 3.14159 / 2 - x) 3.14159 ⟨9, 9, 9, 9, 9, 9, 9, 9⟩ ⟨0, 0, 1⟩ 1
        0).cos_zenith = 0) := by
  have hb : solar_sin_beta (fun x : ℚ => x - x ^ 3 / 6) (fun x => 1 - x ^ 2 / 2) 3.14159
        ⟨0, 0, 1⟩ 1 0 ≤ 0 := by
    norm_num [solar_sin_beta, double_to_int, wrap32, day_angle, calculate_solar_declination,
      calculate_eqn_of_time, calculate_solar_noon, round_to_value, c_round,
      calculate_hour_angle, DEG2RAD]
  exact ⟨⟨by norm_num,
      ((C18_unguarded_division (fun x : ℚ => x - x ^ 3 / 6) (fun x => 1 - x ^ 2 / 2)
        (fun x => 3.14159 / 2 - x) (fun x => 1 + x + x ^ 2 / 2) 3.14159).1
        ⟨0.5, 30, 0.4, 0.6, 0, 0, 0, 0⟩ ⟨0, 0, 1⟩ ⟨2⟩ 100 (by norm_num)).2.2.2.2⟩,
    ⟨rfl, (C18_unguarded_division (fun x : ℚ => x - x ^ 3 / 6) (fun x => 1 - x ^ 2 / 2)
        (fun x => 3.14159 / 2 - x) (fun x => 1 + x + x ^ 2 / 2) 3.14159).2.1
        ⟨0, 0, 1, 0, 0, 0, 0, 0⟩ ⟨0, 0, 1⟩ ⟨2⟩ 100 rfl⟩,
    ⟨hb, (C18_unguarded_division (fun x : ℚ => x - x ^ 3 / 6) (fun x => 1 - x ^ 2 / 2)
        (fun x => 3.14159 / 2 - x) (fun x => 1 + x + x ^ 2 / 2) 3.14159).2.2
        ⟨9, 9, 9, 9, 9, 9, 9, 9⟩ ⟨0, 0, 1⟩ 1 0 hb⟩⟩

/-- A real function that vanishes at `0` and has a nonnegative derivative on
the positive half-line is nonnegative there. -/
theorem nonneg_of_hasDerivAt_nonneg (f f' : ℝ → ℝ) (hf : ∀ x, HasDerivAt f (f' x) x)
    (h0 : f 0 = 0) (hf' : ∀ x, 0 ≤ x → 0 ≤ f' x) (x : ℝ) (hx : 0 ≤ x) : 0 ≤ f x := by
  have hmono : MonotoneOn f (Set.Ici 0) := by
    apply monotoneOn_of_deriv_nonneg (convex_Ici 0)
    · exact fun y _ => (hf y).continuousAt.continuousWithinAt
    · exact fun y _ => (hf y).differentiableAt.differentiableWithinAt
    · intro y hy
      rw [interior_Ici] at hy
      rw [(hf y).deriv]
      exact hf' y (le_of_lt hy)
  have := hmono (Set.mem_Ici.mpr le_rfl) (Set.mem_Ici.mpr hx) hx
  rw [h0] at this
  exact this

/-- Derivative of `x ↦ exp (-a * x)`. -/
theorem hasDerivAt_exp_neg_mul (a x : ℝ) :
    HasDerivAt (fun y : ℝ => Real.exp (-a * y)) (-a * Real.exp (-a * x)) x := by
  have h := ((hasDerivAt_id x).const_mul (-a)).exp
  simp only [id, mul_one] at h
  convert h using 1
  ring

/-- Canopy residual inequality: if the attenuated scattering weight
`W * b * exp (-b x)` never exceeds `A * k * exp (-k x)`, then
`A * ((1 - exp (-k x)) - k/(k+b) * (1 - exp (-(k+b) x)))` dominates
`W/2 * (1 - exp (-b x))^2` for every `x >= 0`. -/
theorem residual_nonneg (A W k b : ℝ) (hk : 0 < k) (hb : 0 < b)
    (hder : ∀ y : ℝ, 0 ≤ y → W * b * Real.exp (-b * y) ≤ A * k * Real.exp (-k * y))
    (x : ℝ) (hx : 0 ≤ x) :
    0 ≤ A * ((1 - Real.exp (-k * x)) - k / (k + b) * (1 - Real.exp (-(k + b) * x))) -
      W / 2 * (1 - Real.exp (-b * x)) ^ 2 := by
  have hkb : k + b ≠ 0 := (add_pos hk hb).ne'
  refine nonneg_of_hasDerivAt_nonneg
    (fun y => A * ((1 - Real.exp (-k * y)) - k / (k + b) * (1 - Real.exp (-(k + b) * y))) -
      W / 2 * (1 - Real.exp (-b * y)) ^ 2)
    (fun y => (1 - Real.exp (-b * y)) *
      (A * k * Real.exp (-k * y) - W * b * Real.exp (-b * y))) ?_ ?_ ?_ x hx
  · intro y
    have h1 := hasDerivAt_exp_neg_mul k y
    have h2 := hasDerivAt_exp_neg_mul (k + b) y
    have h3 := hasDerivAt_exp_neg_mul b y
    have h4 := ((((hasDerivAt_const y (1 : ℝ)).sub h1).sub
      (((hasDerivAt_const y (1 : ℝ)).sub h2).const_mul (k / (k + b)))).const_mul A).sub
      ((((hasDerivAt_const y (1 : ℝ)).sub h3).pow 2).const_mul (W / 2))
    convert h4 using 1
    have h5 : Real.exp (-(k + b) * y) = Real.exp (-k * y) * Real.exp (-b * y) := by
      rw [← Real.exp_add]
      congr 1
      ring
    rw [h5]
    field_simp
    ring
  · simp
  · intro y hy
    apply mul_nonneg
    · have : Real.exp (-b * y) ≤ 1 := by
        rw [Real.exp_le_one_iff]
        nlinarith
      linarith
    · linarith [hder y hy]

/-- The attenuation factor `exp (-a * x)` is at most `1` for `a, x >= 0`. -/
theorem exp_neg_mul_le_one (a x : ℝ) (ha : 0 ≤ a) (hx : 0 ≤ x) : Real.exp (-a * x) ≤ 1 := by
  rw [Real.exp_le_one_iff]
  have := mul_nonneg ha hx
  linarith

/-- The weight condition of the residual inequality for the beam terms:
`0.85 * b * exp (-b y) <= 0.971 * k * exp (-k y)` when `k = 0.92 * b`. -/
theorem beam_weight_le (k b : ℝ) (hb : 0 < b) (hkb : k = 0.92 * b) (y : ℝ) (hy : 0 ≤ y) :
    0.85 * b * Real.exp (-b * y) ≤ 0.971 * k * Real.exp (-k * y) := by
  have he : Real.exp (-b * y) ≤ Real.exp (-k * y) := by
    apply Real.exp_le_exp.mpr
    rw [hkb]
    have := mul_nonneg hb.le hy
    linarith
  have hp := Real.exp_pos (-k * y)
  have h1 : 0.85 * b * Real.exp (-b * y) ≤ 0.85 * b * Real.exp (-k * y) :=
    mul_le_mul_of_nonneg_left he (mul_nonneg (by norm_num) hb.le)
  have h2 : 0.85 * b * Real.exp (-k * y) ≤ 0.971 * k * Real.exp (-k * y) := by
    apply mul_le_mul_of_nonneg_right _ hp.le
    rw [hkb]
    have : (0.85 : ℝ) * b ≤ 0.971 * (0.92 * b) := by
      norm_num
      linarith
    exact this
  exact h1.trans h2

/-- With the exact real exponential, for every `par >= 0`, every
`diffuse_frac` in `[0,1]` with `direct_frac = 1 - diffuse_frac`, every
`lai >= 0` and every `cos_zenith` in `(0,1]`, `calculate_absorbed_radiation`
returns with `apar_leaf[SUNLIT] >= 0` and
`apar_leaf[SHADED] = Ic - apar_leaf[SUNLIT] >= 0`, where `Ic` is the irradiance
absorbed by the canopy. -/
theorem apar_nonneg_exact (cw : canopy_wk ℝ) (p : params ℝ) (s : state ℝ) (par : ℝ)
    (hpar : 0 ≤ par) (hdf0 : 0 ≤ cw.diffuse_frac) (hdf1 : cw.diffuse_frac ≤ 1)
    (hdr : cw.direct_frac = 1 - cw.diffuse_frac) (hlai : 0 ≤ s.lai)
    (hc0 : 0 < cw.cos_zenith) (_hc1 : cw.cos_zenith ≤ 1) :
    ∃ cw', calculate_absorbed_radiation Real.exp cw p s par = some cw' ∧
      0 ≤ cw'.apar_leaf_SUNLIT ∧
      cw'.apar_leaf_SHADED =
        ((1 - 0.029) * (par * cw.direct_frac) *
            (1 - Real.exp (-(0.46 / cw.cos_zenith) * s.lai)) +
          (1 - 0.036) * (par * cw.diffuse_frac) * (1 - Real.exp (-0.718 * s.lai))) -
        cw'.apar_leaf_SUNLIT ∧
      0 ≤ cw'.apar_leaf_SHADED := by
  have hb : (0 : ℝ) < 0.5 / cw.cos_zenith := div_pos (by norm_num) hc0
  have hk : (0 : ℝ) < 0.46 / cw.cos_zenith := div_pos (by norm_num) hc0
  have hkb : (0.46 : ℝ) / cw.cos_zenith = 0.92 * (0.5 / cw.cos_zenith) := by
    field_simp
    norm_num
  have hd : (0.718 : ℝ) + 0.5 / cw.cos_zenith ≠ 0 := (add_pos (by norm_num) hb).ne'
  obtain ⟨cw', h, -, -, -, -, hsun, hsha, -, -⟩ :=
    calculate_absorbed_radiation_eq_some Real.exp cw p s par hc0.ne' hd
  have hIb : 0 ≤ par * cw.direct_frac := mul_nonneg hpar (by rw [hdr]; linarith)
  have hId : 0 ≤ par * cw.diffuse_frac := mul_nonneg hpar hdf0
  -- the two residual inequalities
  have hres1 := residual_nonneg 0.971 0.85 (0.46 / cw.cos_zenith) (0.5 / cw.cos_zenith) hk hb
    (beam_weight_le _ _ hb hkb) s.lai hlai
  have hres2 := residual_nonneg 1 0 0.718 (0.5 / cw.cos_zenith) (by norm_num) hb
    (fun y _ => by
      have hp := Real.exp_pos (-0.718 * y)
      linarith)
    s.lai hlai
  have hE3 : Real.exp (-2 * (0.5 / cw.cos_zenith) * s.lai) =
      Real.exp (-(0.5 / cw.cos_zenith) * s.lai) * Real.exp (-(0.5 / cw.cos_zenith) * s.lai) := by
    rw [← Real.exp_add]
    congr 1
    ring
  have hE1 := exp_neg_mul_le_one (0.5 / cw.cos_zenith) s.lai hb.le hlai
  have hE2 := exp_neg_mul_le_one (0.46 / cw.cos_zenith + 0.5 / cw.cos_zenith) s.lai
    (add_pos hk hb).le hlai
  have hE4 := exp_neg_mul_le_one (0.718 + 0.5 / cw.cos_zenith) s.lai
    (add_pos (by norm_num) hb).le hlai
  have hq1 : (0 : ℝ) ≤ 0.46 / cw.cos_zenith / (0.46 / cw.cos_zenith + 0.5 / cw.cos_zenith) :=
    div_nonneg hk.le (add_pos hk hb).le
  have hq2 : (0 : ℝ) ≤ 0.718 / (0.718 + 0.5 / cw.cos_zenith) :=
    div_nonneg (by norm_num) (add_pos (by norm_num) hb).le
  have hassoc : (1 - 0.029) * (1 - Real.exp (-(0.46 / cw.cos_zenith + 0.5 / cw.cos_zenith) * s.lai)) *
      (0.46 / cw.cos_zenith) / (0.46 / cw.cos_zenith + 0.5 / cw.cos_zenith) =
      (1 - 0.029) * (1 - Real.exp (-(0.46 / cw.cos_zenith + 0.5 / cw.cos_zenith) * s.lai)) *
      (0.46 / cw.cos_zenith / (0.46 / cw.cos_zenith + 0.5 / cw.cos_zenith)) := mul_div_assoc _ _ _
  rw [hE3, hassoc] at hsun
  clear hE3 hassoc
  generalize Real.exp (-(0.5 / cw.cos_zenith) * s.lai) = E1 at *
  generalize Real.exp (-(0.46 / cw.cos_zenith + 0.5 / cw.cos_zenith) * s.lai) = E2 at *
  generalize Real.exp (-(0.718 + 0.5 / cw.cos_zenith) * s.lai) = E4 at *
  generalize Real.exp (-(0.46 / cw.cos_zenith) * s.lai) = E5 at *
  generalize Real.exp (-0.718 * s.lai) = E6 at *
  generalize 0.46 / cw.cos_zenith / (0.46 / cw.cos_zenith + 0.5 / cw.cos_zenith) = q1 at *
  generalize 0.718 / (0.718 + 0.5 / cw.cos_zenith) = q2 at *
  generalize par * cw.direct_frac = Ib at *
  generalize par * cw.diffuse_frac = Id at *
  have hs1 : cw'.apar_leaf_SUNLIT =
      Ib * (0.425 * (1 - E1) ^ 2 + 0.971 * (1 - E2) * q1) + Id * (0.964 * (1 - E4) * q2) := by
    rw [hsun]
    norm_num
    ring
  have hs2 : cw'.apar_leaf_SHADED =
      Ib * (0.971 * (1 - E5 - q1 * (1 - E2)) - 0.85 / 2 * (1 - E1) ^ 2) +
        Id * (0.964 * (1 * (1 - E6 - q2 * (1 - E4)) - 0 / 2 * (1 - E1) ^ 2)) := by
    rw [hsha, hs1]
    norm_num
    ring
  refine ⟨cw', h, ?_, hsha, ?_⟩
  · rw [hs1]
    refine add_nonneg (mul_nonneg hIb (add_nonneg ?_ ?_)) (mul_nonneg hId ?_)
    · exact mul_nonneg (by norm_num) (sq_nonneg _)
    · exact mul_nonneg (mul_nonneg (by norm_num) (by linarith)) hq1
    · exact mul_nonneg (mul_nonneg (by norm_num) (by linarith)) hq2
  · rw [hs2]
    exact add_nonneg (mul_nonneg hIb hres1) (mul_nonneg hId (mul_nonneg (by norm_num) hres2))

/-- Conversion of the `double` day 172 to `int`. -/
theorem double_to_int_172 : double_to_int (172 : ℝ) = 172 := by
  have h : ⌊(172 : ℝ)⌋ = 172 := Int.floor_ofNat 172
  simp only [double_to_int, if_pos (by norm_num : (0 : ℝ) ≤ 172), h]
  unfold wrap32
  norm_num

/-- Solar declination on day 172 (real cosine): between `0.40838` and
`0.40841` radians. -/
theorem declination_172_bounds (g : ℝ) :
    0.40838 ≤ calculate_solar_declination Real.cos Real.pi 172 g ∧
    calculate_solar_declination Real.cos Real.pi 172 g ≤ 0.40841 := by
  have hw : wrap32 (172 + 10) = 182 := by unfold wrap32; norm_num
  have hpi1 := Real.pi_gt_d6
  have hpi2 := Real.pi_lt_d6
  have harg : (2.0 : ℝ) * Real.pi * ((182 : ℤ) : ℝ) / 365 = Real.pi - Real.pi / 365 := by
    push_cast
    norm_num
    ring
  have hx0 : 0 ≤ Real.pi / 365 := by positivity
  have hx1 : Real.pi / 365 ≤ 0.00861 := by
    rw [div_le_iff₀ (by norm_num)]
    norm_num at hpi2 ⊢
    linarith
  have hc1 : Real.cos (Real.pi / 365) ≤ 1 := Real.cos_le_one _
  have hc0 : 0.99996 ≤ Real.cos (Real.pi / 365) := by
    have h := Real.one_sub_sq_div_two_le_cos (x := Real.pi / 365)
    have h2 : (Real.pi / 365) ^ 2 ≤ 0.00861 ^ 2 := pow_le_pow_left₀ hx0 hx1 2
    norm_num at h2 ⊢
    linarith
  simp only [calculate_solar_declination, hw, harg, Real.cos_pi_sub]
  have hp : (0 : ℝ) ≤ 23.4 * (Real.pi / 180) := by positivity
  have hp1 : (23.4 : ℝ) * (Real.pi / 180) ≤ 0.408408 := by
    norm_num at hpi2 ⊢
    linarith
  have hp0 : (0.408406 : ℝ) ≤ 23.4 * (Real.pi / 180) := by
    norm_num at hpi1 ⊢
    linarith
  have e : (-23.4 : ℝ) * (Real.pi / 180) * -Real.cos (Real.pi / 365) =
      23.4 * (Real.pi / 180) * Real.cos (Real.pi / 365) := by ring
  rw [e]
  constructor
  · have := mul_le_mul hp0 hc0 (by norm_num) hp
    norm_num at this ⊢
    linarith
  · have := mul_le_mul hp1 hc1 (by linarith) (by norm_num)
    norm_num at this ⊢
    linarith

/-- Sine and cosine of an angle between `0.40838` and `0.40841` radians. -/
theorem sin_cos_declination_bounds (x : ℝ) (h0 : 0.40838 ≤ x) (h1 : x ≤ 0.40841) :
    (0.39557 ≤ Real.sin x ∧ Real.sin x ≤ 0.39851) ∧
    (0.91660 ≤ Real.cos x ∧ Real.cos x ≤ 0.91807) := by
  have hx0 : (0 : ℝ) ≤ x := le_trans (by norm_num) h0
  have habs : |x| ≤ 1 := by
    rw [abs_of_nonneg hx0]
    exact le_trans h1 (by norm_num)
  have hs := abs_le.mp (Real.sin_bound habs)
  have hc := abs_le.mp (Real.cos_bound habs)
  have hc' := Real.one_sub_sq_div_two_le_cos (x := x)
  rw [abs_of_nonneg hx0] at hs hc
  have l2 : (0.40838 : ℝ) ^ 2 ≤ x ^ 2 := pow_le_pow_left₀ (by norm_num) h0 2
  have u2 : x ^ 2 ≤ (0.40841 : ℝ) ^ 2 := pow_le_pow_left₀ hx0 h1 2
  have l3 : (0.40838 : ℝ) ^ 3 ≤ x ^ 3 := pow_le_pow_left₀ (by norm_num) h0 3
  have u3 : x ^ 3 ≤ (0.40841 : ℝ) ^ 3 := pow_le_pow_left₀ hx0 h1 3
  have u4 : x ^ 4 ≤ (0.40841 : ℝ) ^ 4 := pow_le_pow_left₀ hx0 h1 4
  norm_num at l2 u2 l3 u3 u4 h0 h1 ⊢
  refine ⟨⟨?_, ?_⟩, ⟨?_, ?_⟩⟩ <;> linarith [hs.1, hs.2, hc.1, hc.2]

/-- Standard meridian of longitude 0. -/
theorem round_to_value_zero : round_to_value (0 : ℝ) 15 = 0 := by
  simp only [round_to_value, c_round]
  norm_num

/-- Equation of time on day 172 (real sine and cosine): between `-7.15` and
`3.80` minutes. -/
theorem eqn_of_time_172_bounds :
    -7.15 ≤ calculate_eqn_of_time Real.sin Real.cos (day_angle Real.pi 172) ∧
    calculate_eqn_of_time Real.sin Real.cos (day_angle Real.pi 172) ≤ 3.80 := by
  have hpi1 := Real.pi_gt_d6
  have hpi2 := Real.pi_lt_d6
  have hg : day_angle Real.pi 172 = Real.pi - 23 * Real.pi / 365 := by
    simp only [day_angle]
    push_cast
    norm_num
    ring
  have hx0 : 0 ≤ 23 * Real.pi / 365 := by positivity
  have hx1 : 23 * Real.pi / 365 ≤ 0.19797 := by
    rw [div_le_iff₀ (by norm_num)]
    norm_num at hpi2 ⊢
    linarith
  have hs0 : 0 ≤ Real.sin (day_angle Real.pi 172) := by
    rw [hg, Real.sin_pi_sub]
    exact Real.sin_nonneg_of_nonneg_of_le_pi hx0 (by linarith)
  have hs1 : Real.sin (day_angle Real.pi 172) ≤ 0.19797 := by
    rw [hg, Real.sin_pi_sub]
    exact (Real.sin_le hx0).trans hx1
  have hc0 := Real.neg_one_le_cos (day_angle Real.pi 172)
  have hc1 := Real.cos_le_one (day_angle Real.pi 172)
  have hd0 := Real.neg_one_le_cos (2.0 * day_angle Real.pi 172)
  have hd1 := Real.cos_le_one (2.0 * day_angle Real.pi 172)
  simp only [calculate_eqn_of_time]
  norm_num at hs1 ⊢
  constructor <;> linarith

/-- Hour angle at noon (half-hour index 24) of day 172 at longitude 0: its
cosine is between `0.9995` and `1`. -/
theorem cos_hour_angle_172_bounds :
    0.9995 ≤ Real.cos (calculate_hour_angle Real.pi (24 / 2.0)
      (calculate_solar_noon
        (calculate_eqn_of_time Real.sin Real.cos (day_angle Real.pi 172)) 0)) ∧
    Real.cos (calculate_hour_angle Real.pi (24 / 2.0)
      (calculate_solar_noon
        (calculate_eqn_of_time Real.sin Real.cos (day_angle Real.pi 172)) 0)) ≤ 1 := by
  have hpi1 := Real.pi_gt_d6
  have hpi2 := Real.pi_lt_d6
  obtain ⟨he0, he1⟩ := eqn_of_time_172_bounds
  generalize calculate_eqn_of_time Real.sin Real.cos (day_angle Real.pi 172) = et at he0 he1
  have hH : calculate_hour_angle Real.pi (24 / 2.0) (calculate_solar_noon et 0) =
      Real.pi * et / 720 := by
    simp only [calculate_hour_angle, calculate_solar_noon, round_to_value_zero]
    norm_num
    ring
  rw [hH]
  refine ⟨?_, Real.cos_le_one _⟩
  have h := Real.one_sub_sq_div_two_le_cos (x := Real.pi * et / 720)
  have hb : |Real.pi * et / 720| ≤ 0.0312 := by
    rw [abs_le]
    norm_num at he0 he1 hpi1 hpi2 ⊢
    constructor
    · rw [le_div_iff₀ (by norm_num)]
      nlinarith
    · rw [div_le_iff₀ (by norm_num)]
      nlinarith
  have hsq : (Real.pi * et / 720) ^ 2 ≤ 0.0312 ^ 2 := by
    rw [← sq_abs]
    exact pow_le_pow_left₀ (abs_nonneg _) hb 2
  norm_num at hsq ⊢
  linarith

/-- Bounds on `sqrt 2 / 2`, the sine and cosine of 45 degrees. -/
theorem sqrt_two_div_two_bounds : 0.70710 ≤ √2 / 2 ∧ √2 / 2 ≤ 0.70711 := by
  have h1 : (1.41420 : ℝ) < √2 := by
    rw [Real.lt_sqrt (by norm_num)]
    norm_num
  have h2 : √2 < (1.41422 : ℝ) := by
    rw [Real.sqrt_lt' (by norm_num)]
    norm_num
  norm_num at h1 h2 ⊢
  constructor <;> linarith

/-- A cosine between `0.927` and `0.932` belongs to a zenith angle between
21 and 23 degrees. -/
theorem arccos_window (x : ℝ) (h0 : 0.927 ≤ x) (h1 : x ≤ 0.932) :
    21 * Real.pi / 180 ≤ Real.arccos x ∧ Real.arccos x ≤ 23 * Real.pi / 180 := by
  have hpi1 := Real.pi_gt_d6
  have hpi2 := Real.pi_lt_d6
  have hx : x ∈ Set.Icc (-1 : ℝ) 1 := ⟨by linarith, by norm_num at h1; linarith⟩
  -- 23 degrees
  have ha0 : (0.401425 : ℝ) ≤ 23 * Real.pi / 180 := by
    rw [le_div_iff₀ (by norm_num)]
    norm_num at hpi1 ⊢
    linarith
  have ha1 : 23 * Real.pi / 180 ≤ (0.401427 : ℝ) := by
    rw [div_le_iff₀ (by norm_num)]
    norm_num at hpi2 ⊢
    linarith
  have hapos : (0 : ℝ) ≤ 23 * Real.pi / 180 := by positivity
  have hc23 : Real.cos (23 * Real.pi / 180) ≤ 0.927 := by
    have habs : |23 * Real.pi / 180| ≤ 1 := by
      rw [abs_of_nonneg hapos]
      exact ha1.trans (by norm_num)
    have hb := (abs_le.mp (Real.cos_bound habs)).2
    rw [abs_of_nonneg hapos] at hb
    have l2 : (0.401425 : ℝ) ^ 2 ≤ (23 * Real.pi / 180) ^ 2 :=
      pow_le_pow_left₀ (by norm_num) ha0 2
    have u4 : (23 * Real.pi / 180) ^ 4 ≤ (0.401427 : ℝ) ^ 4 := pow_le_pow_left₀ hapos ha1 4
    norm_num at l2 u4 ⊢
    linarith
  -- 21 degrees
  have hb1 : 21 * Real.pi / 180 ≤ (0.36652 : ℝ) := by
    rw [div_le_iff₀ (by norm_num)]
    norm_num at hpi2 ⊢
    linarith
  have hbpos : (0 : ℝ) ≤ 21 * Real.pi / 180 := by positivity
  have hc21 : 0.932 ≤ Real.cos (21 * Real.pi / 180) := by
    have hb := Real.one_sub_sq_div_two_le_cos (x := 21 * Real.pi / 180)
    have u2 : (21 * Real.pi / 180) ^ 2 ≤ (0.36652 : ℝ) ^ 2 := pow_le_pow_left₀ hbpos hb1 2
    norm_num at u2 ⊢
    linarith
  have hm21 : Real.cos (21 * Real.pi / 180) ∈ Set.Icc (-1 : ℝ) 1 :=
    ⟨Real.neg_one_le_cos _, Real.cos_le_one _⟩
  have hm23 : Real.cos (23 * Real.pi / 180) ∈ Set.Icc (-1 : ℝ) 1 :=
    ⟨Real.neg_one_le_cos _, Real.cos_le_one _⟩
  constructor
  · have h := Real.strictAntiOn_arccos.antitoneOn hx hm21 (h1.trans hc21)
    rwa [Real.arccos_cos hbpos (by linarith)] at h
  · have h := Real.strictAntiOn_arccos.antitoneOn hm23 hx (hc23.trans h0)
    rwa [Real.arccos_cos hapos (by linarith)] at h

/-- Scenario 1 (day 172, half-hour index 24, latitude 45, longitude 0, real
sine and cosine): `sin_beta` is between `0.927` and `0.932`. -/
theorem sin_beta_172_bounds (lad : ℝ) :
    0.927 ≤ solar_sin_beta Real.sin Real.cos Real.pi ⟨45, 0, lad⟩ 172 24 ∧
    solar_sin_beta Real.sin Real.cos Real.pi ⟨45, 0, lad⟩ 172 24 ≤ 0.932 := by
  have hlat : DEG2RAD Real.pi (45 : ℝ) = Real.pi / 4 := by
    simp only [DEG2RAD]
    norm_num
    ring
  simp only [solar_sin_beta, double_to_int_172, hlat, Real.sin_pi_div_four,
    Real.cos_pi_div_four]
  obtain ⟨hd0, hd1⟩ := declination_172_bounds (day_angle Real.pi 172)
  obtain ⟨⟨ha0, ha1⟩, hb0, hb1⟩ := sin_cos_declination_bounds _ hd0 hd1
  obtain ⟨hc0, hc1⟩ := cos_hour_angle_172_bounds
  obtain ⟨hs0, hs1⟩ := sqrt_two_div_two_bounds
  generalize Real.sin (calculate_solar_declination Real.cos Real.pi 172
    (day_angle Real.pi 172)) = a at ha0 ha1 ⊢
  generalize Real.cos (calculate_solar_declination Real.cos Real.pi 172
    (day_angle Real.pi 172)) = b at hb0 hb1 ⊢
  generalize Real.cos (calculate_hour_angle Real.pi (24 / 2.0)
    (calculate_solar_noon
      (calculate_eqn_of_time Real.sin Real.cos (day_angle Real.pi 172)) 0)) = c at hc0 hc1 ⊢
  generalize √2 / 2 = S at hs0 hs1 ⊢
  have hS : (0 : ℝ) ≤ S := le_trans (by norm_num) hs0
  have ha : (0 : ℝ) ≤ a := le_trans (by norm_num) ha0
  have hb : (0 : ℝ) ≤ b := le_trans (by norm_num) hb0
  have hc : (0 : ℝ) ≤ c := le_trans (by norm_num) hc0
  have l1 : (0.70710 : ℝ) * 0.39557 ≤ S * a := mul_le_mul hs0 ha0 (by norm_num) hS
  have l2 : (0.70710 : ℝ) * 0.91660 ≤ S * b := mul_le_mul hs0 hb0 (by norm_num) hS
  have l3 : (0.70710 : ℝ) * 0.91660 * 0.9995 ≤ S * b * c :=
    mul_le_mul l2 hc0 (by norm_num) (mul_nonneg hS hb)
  have u1 : S * a ≤ (0.70711 : ℝ) * 0.39851 := mul_le_mul hs1 ha1 ha (by norm_num)
  have u2 : S * b ≤ (0.70711 : ℝ) * 0.91807 := mul_le_mul hs1 hb1 hb (by norm_num)
  have u3 : S * b * c ≤ (0.70711 : ℝ) * 0.91807 * 1 :=
    mul_le_mul u2 hc1 hc (by norm_num)
  norm_num at l1 l3 u1 u3 ⊢
  constructor <;> linarith

/-- C15: for `doy = 172`, half-hour index `hod = 24`, latitude 45 degrees and
longitude 0 degrees, `calculate_solar_geometry` (real sine, cosine, arc cosine
and π) yields `67 <= elevation <= 69` with `0 < cos_zenith < 1`, and no clamp
is active: `cos_zenith` is `sin_beta`. -/
theorem C15_solstice_noon (cw : canopy_wk ℝ) (lad : ℝ) :
    67 ≤ (calculate_solar_geometry Real.sin Real.cos Real.arccos Real.pi cw
      ⟨45, 0, lad⟩ 172 24).elevation ∧
    (calculate_solar_geometry Real.sin Real.cos Real.arccos Real.pi cw
      ⟨45, 0, lad⟩ 172 24).elevation ≤ 69 ∧
    0 < (calculate_solar_geometry Real.sin Real.cos Real.arccos Real.pi cw
      ⟨45, 0, lad⟩ 172 24).cos_zenith ∧
    (calculate_solar_geometry Real.sin Real.cos Real.arccos Real.pi cw
      ⟨45, 0, lad⟩ 172 24).cos_zenith < 1 ∧
    (calculate_solar_geometry Real.sin Real.cos Real.arccos Real.pi cw
      ⟨45, 0, lad⟩ 172 24).cos_zenith =
      solar_sin_beta Real.sin Real.cos Real.pi ⟨45, 0, lad⟩ 172 24 := by
  obtain ⟨h0, h1⟩ := sin_beta_172_bounds lad
  have hcz : (calculate_solar_geometry Real.sin Real.cos Real.arccos Real.pi cw
      ⟨45, 0, lad⟩ 172 24).cos_zenith =
      solar_sin_beta Real.sin Real.cos Real.pi ⟨45, 0, lad⟩ 172 24 := by
    have n1 : ¬ solar_sin_beta Real.sin Real.cos Real.pi ⟨45, 0, lad⟩ 172 24 > 1.0 := by
      norm_num at h1 ⊢
      linarith
    have n2 : ¬ solar_sin_beta Real.sin Real.cos Real.pi ⟨45, 0, lad⟩ 172 24 < 0.0 := by
      norm_num at h0 ⊢
      linarith
    simp only [calculate_solar_geometry, cos_zenith_clamp, if_neg n1, if_neg n2]
  have hel : (calculate_solar_geometry Real.sin Real.cos Real.arccos Real.pi cw
      ⟨45, 0, lad⟩ 172 24).elevation =
      90 - 180 * Real.arccos (solar_sin_beta Real.sin Real.cos Real.pi ⟨45, 0, lad⟩ 172 24) /
        Real.pi := by
    rw [← hcz]
    simp only [calculate_solar_geometry, RAD2DEG]
    norm_num
  obtain ⟨w0, w1⟩ := arccos_window _ h0 h1
  rw [hel, hcz]
  generalize solar_sin_beta Real.sin Real.cos Real.pi ⟨45, 0, lad⟩ 172 24 = sb at *
  have hpi := Real.pi_pos
  have e1 : 180 * Real.arccos sb / Real.pi ≤ 23 := by
    rw [div_le_iff₀ hpi]
    linarith
  have e2 : 21 ≤ 180 * Real.arccos sb / Real.pi := by
    rw [le_div_iff₀ hpi]
    linarith
  norm_num at h0 h1
  refine ⟨by linarith, by linarith, by linarith, by linarith, rfl⟩

/-- Bounds on the real exponential at a non-positive argument:
`1 - t <= exp (-t) <= 1 - t + t^2` for `t >= 0`. -/
theorem exp_neg_bounds (t : ℝ) (ht : 0 ≤ t) :
    1 - t ≤ Real.exp (-t) ∧ Real.exp (-t) ≤ 1 - t + t ^ 2 := by
  constructor
  · have := Real.add_one_le_exp (-t)
    linarith
  · have h1 : 1 + t ≤ Real.exp t := by
      have := Real.add_one_le_exp t
      linarith
    have hpos : (0 : ℝ) < 1 + t := by linarith
    have h2 : Real.exp (-t) ≤ 1 / (1 + t) := by
      rw [Real.exp_neg, ← one_div]
      exact one_div_le_one_div_of_le hpos h1
    have h3 : 1 / (1 + t) ≤ 1 - t + t ^ 2 := by
      rw [div_le_iff₀ hpos]
      nlinarith [pow_nonneg ht 3]
    exact h2.trans h3

/-- The six values of `exp` in double precision that
`calculate_absorbed_radiation` uses at `cos_zenith = 0.5`, `lai = 1e-10`
(each the double nearest to the exponential of its argument), extended by the
exact exponential elsewhere, stay within `2^-53` of the exact exponential. -/
theorem exp_double_table_close (x : ℝ) (_hx : x ≤ 0) :
    |(fun y : ℝ =>
        if y = -1e-10 then 9007199253840272 / 9007199254740992
        else if y = -1.718e-10 then 9007199253193555 / 9007199254740992
        else if y = -1.92e-10 then 9007199253011610 / 9007199254740992
        else if y = -2e-10 then 9007199252939552 / 9007199254740992
        else if y = -9.2e-11 then 9007199253912330 / 9007199254740992
        else if y = -7.18e-11 then 9007199254094275 / 9007199254740992
        else Real.exp y) x - Real.exp x| ≤ 1 / 9007199254740992 := by
  simp only []
  split_ifs with h1 h2 h3 h4 h5 h6
  · obtain ⟨l, u⟩ := exp_neg_bounds 1e-10 (by norm_num)
    rw [h1, abs_le]
    norm_num at l u ⊢
    constructor <;> linarith
  · obtain ⟨l, u⟩ := exp_neg_bounds 1.718e-10 (by norm_num)
    rw [h2, abs_le]
    norm_num at l u ⊢
    constructor <;> linarith
  · obtain ⟨l, u⟩ := exp_neg_bounds 1.92e-10 (by norm_num)
    rw [h3, abs_le]
    norm_num at l u ⊢
    constructor <;> linarith
  · obtain ⟨l, u⟩ := exp_neg_bounds 2e-10 (by norm_num)
    rw [h4, abs_le]
    norm_num at l u ⊢
    constructor <;> linarith
  · obtain ⟨l, u⟩ := exp_neg_bounds 9.2e-11 (by norm_num)
    rw [h5, abs_le]
    norm_num at l u ⊢
    constructor <;> linarith
  · obtain ⟨l, u⟩ := exp_neg_bounds 7.18e-11 (by norm_num)
    rw [h6, abs_le]
    norm_num at l u ⊢
    constructor <;> linarith
  · simp

/-- A product `a * d` with `0 <= a <= A` and `|d| <= delta` lies within
`A * delta` of zero. -/
theorem mul_error_bound (a A d delta : ℝ) (ha : 0 ≤ a) (hA : a ≤ A) (hd : |d| ≤ delta) :
    -(A * delta) ≤ a * d ∧ a * d ≤ A * delta := by
  have hdel : 0 ≤ delta := (abs_nonneg d).trans hd
  obtain ⟨l, u⟩ := abs_le.mp hd
  have h1 : a * d ≤ a * delta := mul_le_mul_of_nonneg_left u ha
  have h2 : a * -delta ≤ a * d := mul_le_mul_of_nonneg_left l ha
  have h3 : a * delta ≤ A * delta := mul_le_mul_of_nonneg_right hA hdel
  constructor <;> linarith

/-- C20 (as stated, refuted): at `cos_zenith = 0.5`, `lai = 1e-10`, `par = 100`,
`diffuse_frac = 0.25`, `direct_frac = 0.75`, with `exp` returning the doubles
nearest to the exponential at its six arguments, the function computes
`apar_leaf[SHADED] = Ic - apar_leaf[SUNLIT] = -803241 / 495179786228640776192`,
about `-1.62e-15`, which is negative. -/
theorem C20_apar_nonneg_counterexample :
    ((0 : ℚ) ≤ 100 ∧
      0 ≤ (⟨0.5, 30, 0.25, 0.75, 0, 0, 0, 0⟩ : canopy_wk ℚ).diffuse_frac ∧
      (⟨0.5, 30, 0.25, 0.75, 0, 0, 0, 0⟩ : canopy_wk ℚ).diffuse_frac ≤ 1 ∧
      (⟨0.5, 30, 0.25, 0.75, 0, 0, 0, 0⟩ : canopy_wk ℚ).direct_frac =
        1 - (⟨0.5, 30, 0.25, 0.75, 0, 0, 0, 0⟩ : canopy_wk ℚ).diffuse_frac ∧
      0 ≤ (⟨1e-10⟩ : state ℚ).lai ∧
      0 < (⟨0.5, 30, 0.25, 0.75, 0, 0, 0, 0⟩ : canopy_wk ℚ).cos_zenith ∧
      (⟨0.5, 30, 0.25, 0.75, 0, 0, 0, 0⟩ : canopy_wk ℚ).cos_zenith ≤ 1) ∧
    ∃ cw', calculate_absorbed_radiation
        (fun y : ℚ =>
          if y = -1e-10 then 9007199253840272 / 9007199254740992
          else if y = -1.718e-10 then 9007199253193555 / 9007199254740992
          else if y = -1.92e-10 then 9007199253011610 / 9007199254740992
          else if y = -2e-10 then 9007199252939552 / 9007199254740992
          else if y = -9.2e-11 then 9007199253912330 / 9007199254740992
          else if y = -7.18e-11 then 9007199254094275 / 9007199254740992
          else 1)
        ⟨0.5, 30, 0.25, 0.75, 0, 0, 0, 0⟩ ⟨45, 0, 1⟩ ⟨1e-10⟩ 100 = some cw' ∧
      cw'.apar_leaf_SHADED = -803241 / 495179786228640776192 ∧
      cw'.apar_leaf_SHADED < 0 := by
  refine ⟨by norm_num, ?_⟩
  obtain ⟨cw', h, -, -, -, -, hsun, hsha, -, -⟩ := calculate_absorbed_radiation_eq_some
    (fun y : ℚ =>
      if y = -1e-10 then 9007199253840272 / 9007199254740992
      else if y = -1.718e-10 then 9007199253193555 / 9007199254740992
      else if y = -1.92e-10 then 9007199253011610 / 9007199254740992
      else if y = -2e-10 then 9007199252939552 / 9007199254740992
      else if y = -9.2e-11 then 9007199253912330 / 9007199254740992
      else if y = -7.18e-11 then 9007199254094275 / 9007199254740992
      else 1)
    ⟨0.5, 30, 0.25, 0.75, 0, 0, 0, 0⟩ ⟨45, 0, 1⟩ ⟨1e-10⟩ 100 (by norm_num) (by norm_num)
  have h1 : cw'.apar_leaf_SHADED = -803241 / 495179786228640776192 := by
    rw [hsha, hsun]
    norm_num
  refine ⟨cw', h, h1, ?_⟩
  rw [h1]
  norm_num

/-- Transfer of the sign of the absorbed irradiances from exact attenuation
factors `E1 .. E6` to factors `D1 .. D6` within `delta` of them: the sunlit
sum drops by at most `3 * par * delta` and the residual by at most
`4 * par * delta`. -/
theorem apar_error_transfer (Ib Id par q1 q2 delta E1 E2 E3 E4 E5 E6 D1 D2 D3 D4 D5 D6 : ℝ)
    (hIb : 0 ≤ Ib) (hId : 0 ≤ Id) (hsum : Ib + Id = par)
    (hq1 : 0 ≤ q1) (hq1u : q1 ≤ 1) (hq2 : 0 ≤ q2) (hq2u : q2 ≤ 1)
    (e1 : |D1 - E1| ≤ delta) (e2 : |D2 - E2| ≤ delta) (e3 : |D3 - E3| ≤ delta)
    (e4 : |D4 - E4| ≤ delta) (e5 : |D5 - E5| ≤ delta) (e6 : |D6 - E6| ≤ delta)
    (n1 : 0 ≤ Ib * (1 - 0.15) * (1 - E1) +
      Ib * ((1 - 0.029) * (1 - E2) * q1 - (1 - 0.15) * (1 - E3) / 2) +
      Id * (1 - 0.036) * (1 - E4) * q2)
    (n2 : 0 ≤ (1 - 0.029) * Ib * (1 - E5) + (1 - 0.036) * Id * (1 - E6) -
      (Ib * (1 - 0.15) * (1 - E1) +
        Ib * ((1 - 0.029) * (1 - E2) * q1 - (1 - 0.15) * (1 - E3) / 2) +
        Id * (1 - 0.036) * (1 - E4) * q2)) :
    -(3 * par * delta) ≤ Ib * (1 - 0.15) * (1 - D1) +
      Ib * ((1 - 0.029) * (1 - D2) * q1 - (1 - 0.15) * (1 - D3) / 2) +
      Id * (1 - 0.036) * (1 - D4) * q2 ∧
    -(4 * par * delta) ≤ (1 - 0.029) * Ib * (1 - D5) + (1 - 0.036) * Id * (1 - D6) -
      (Ib * (1 - 0.15) * (1 - D1) +
        Ib * ((1 - 0.029) * (1 - D2) * q1 - (1 - 0.15) * (1 - D3) / 2) +
        Id * (1 - 0.036) * (1 - D4) * q2) := by
  have hdel : 0 ≤ delta := (abs_nonneg _).trans e1
  obtain ⟨l1, u1⟩ := mul_error_bound Ib Ib (D1 - E1) delta hIb le_rfl e1
  obtain ⟨l2, u2⟩ := mul_error_bound (Ib * q1) Ib (D2 - E2) delta (mul_nonneg hIb hq1)
    (mul_le_of_le_one_right hIb hq1u) e2
  obtain ⟨l3, u3⟩ := mul_error_bound Ib Ib (D3 - E3) delta hIb le_rfl e3
  obtain ⟨l4, u4⟩ := mul_error_bound (Id * q2) Id (D4 - E4) delta (mul_nonneg hId hq2)
    (mul_le_of_le_one_right hId hq2u) e4
  obtain ⟨l5, u5⟩ := mul_error_bound Ib Ib (D5 - E5) delta hIb le_rfl e5
  obtain ⟨l6, u6⟩ := mul_error_bound Id Id (D6 - E6) delta hId le_rfl e6
  have hIbd : 0 ≤ Ib * delta := mul_nonneg hIb hdel
  have hIdd : 0 ≤ Id * delta := mul_nonneg hId hdel
  have hpd : par * delta = Ib * delta + Id * delta := by rw [← hsum]; ring
  norm_num at n1 n2 ⊢
  constructor <;> nlinarith

/-- C20 (amended): for every `par >= 0`, every `diffuse_frac` in `[0,1]` with
`direct_frac = 1 - diffuse_frac`, every `lai >= 0` and every `cos_zenith` in
`(0,1]`, if every value that `exp` returns at a non-positive argument is
within `delta` of the exact exponential, then `calculate_absorbed_radiation`
returns with `apar_leaf[SUNLIT] >= -3*par*delta` and
`apar_leaf[SHADED] = Ic - apar_leaf[SUNLIT] >= -4*par*delta`; with an exact
`exp` (`delta = 0`) both outputs are non-negative. -/
theorem C20_apar_nonneg_within_error (exp : ℝ → ℝ) (delta : ℝ) (cw : canopy_wk ℝ)
    (p : params ℝ) (s : state ℝ) (par : ℝ)
    (hexp : ∀ x : ℝ, x ≤ 0 → |exp x - Real.exp x| ≤ delta)
    (hpar : 0 ≤ par) (hdf0 : 0 ≤ cw.diffuse_frac) (hdf1 : cw.diffuse_frac ≤ 1)
    (hdr : cw.direct_frac = 1 - cw.diffuse_frac) (hlai : 0 ≤ s.lai)
    (hc0 : 0 < cw.cos_zenith) (hc1 : cw.cos_zenith ≤ 1) :
    ∃ cw', calculate_absorbed_radiation exp cw p s par = some cw' ∧
      -(3 * par * delta) ≤ cw'.apar_leaf_SUNLIT ∧
      cw'.apar_leaf_SHADED =
        ((1 - 0.029) * (par * cw.direct_frac) *
            (1 - exp (-(0.46 / cw.cos_zenith) * s.lai)) +
          (1 - 0.036) * (par * cw.diffuse_frac) * (1 - exp (-0.718 * s.lai))) -
        cw'.apar_leaf_SUNLIT ∧
      -(4 * par * delta) ≤ cw'.apar_leaf_SHADED := by
  have hb : (0 : ℝ) < 0.5 / cw.cos_zenith := div_pos (by norm_num) hc0
  have hk : (0 : ℝ) < 0.46 / cw.cos_zenith := div_pos (by norm_num) hc0
  have hd : (0.718 : ℝ) + 0.5 / cw.cos_zenith ≠ 0 := (add_pos (by norm_num) hb).ne'
  obtain ⟨cw', h, -, -, -, -, hsun, hsha, -, -⟩ :=
    calculate_absorbed_radiation_eq_some exp cw p s par hc0.ne' hd
  obtain ⟨cwR, hR, n1, -, n2⟩ :=
    apar_nonneg_exact cw p s par hpar hdf0 hdf1 hdr hlai hc0 hc1
  obtain ⟨cwR', hR', -, -, -, -, hsunR, hshaR, -, -⟩ :=
    calculate_absorbed_radiation_eq_some Real.exp cw p s par hc0.ne' hd
  have hcw : cwR' = cwR := Option.some.inj (hR'.symm.trans hR)
  rw [hcw] at hsunR hshaR
  -- the six arguments of `exp` are non-positive
  have a1 : -(0.5 / cw.cos_zenith) * s.lai ≤ 0 :=
    mul_nonpos_of_nonpos_of_nonneg (neg_nonpos.mpr hb.le) hlai
  have a2 : -(0.46 / cw.cos_zenith + 0.5 / cw.cos_zenith) * s.lai ≤ 0 :=
    mul_nonpos_of_nonpos_of_nonneg (neg_nonpos.mpr (add_pos hk hb).le) hlai
  have a3 : -2 * (0.5 / cw.cos_zenith) * s.lai ≤ 0 :=
    mul_nonpos_of_nonpos_of_nonneg
      (mul_nonpos_of_nonpos_of_nonneg (by norm_num) hb.le) hlai
  have a4 : -(0.718 + 0.5 / cw.cos_zenith) * s.lai ≤ 0 :=
    mul_nonpos_of_nonpos_of_nonneg
      (neg_nonpos.mpr (add_pos (by norm_num : (0 : ℝ) < 0.718) hb).le) hlai
  have a5 : -(0.46 / cw.cos_zenith) * s.lai ≤ 0 :=
    mul_nonpos_of_nonpos_of_nonneg (neg_nonpos.mpr hk.le) hlai
  have a6 : -0.718 * s.lai ≤ 0 :=
    mul_nonpos_of_nonpos_of_nonneg (by norm_num) hlai
  have hIb : 0 ≤ par * cw.direct_frac :=
    mul_nonneg hpar (by rw [hdr]; exact sub_nonneg.mpr hdf1)
  have hId : 0 ≤ par * cw.diffuse_frac := mul_nonneg hpar hdf0
  have hsum : par * cw.direct_frac + par * cw.diffuse_frac = par := by rw [hdr]; ring
  have hq1 : (0 : ℝ) ≤ 0.46 / cw.cos_zenith / (0.46 / cw.cos_zenith + 0.5 / cw.cos_zenith) :=
    div_nonneg hk.le (add_pos hk hb).le
  have hq1' : 0.46 / cw.cos_zenith / (0.46 / cw.cos_zenith + 0.5 / cw.cos_zenith) ≤ (1 : ℝ) :=
    (div_le_one (add_pos hk hb)).mpr (le_add_of_nonneg_right hb.le)
  have hq2 : (0 : ℝ) ≤ 0.718 / (0.718 + 0.5 / cw.cos_zenith) :=
    div_nonneg (by norm_num) (add_pos (by norm_num) hb).le
  have hq2' : 0.718 / (0.718 + 0.5 / cw.cos_zenith) ≤ (1 : ℝ) :=
    (div_le_one (add_pos (by norm_num) hb)).mpr (le_add_of_nonneg_right hb.le)
  have hassoc : ∀ X : ℝ, X * (0.46 / cw.cos_zenith) /
      (0.46 / cw.cos_zenith + 0.5 / cw.cos_zenith) =
      X * (0.46 / cw.cos_zenith / (0.46 / cw.cos_zenith + 0.5 / cw.cos_zenith)) :=
    fun X => mul_div_assoc _ _ _
  rw [hassoc] at hsun hsunR
  have e1 := hexp _ a1
  have e2 := hexp _ a2
  have e3 := hexp _ a3
  have e4 := hexp _ a4
  have e5 := hexp _ a5
  have e6 := hexp _ a6
  rw [hsunR] at n1
  rw [hshaR, hsunR] at n2
  obtain ⟨t1, t2⟩ := apar_error_transfer _ _ _ _ _ _ _ _ _ _ _ _ _ _ _ _ _ _ hIb hId hsum
    hq1 hq1' hq2 hq2' e1 e2 e3 e4 e5 e6 n1 n2
  refine ⟨cw', h, ?_, hsha, ?_⟩
  · rw [hsun]
    exact t1
  · rw [hsha, hsun]
    exact t2

/-- Witness for C20 (amended) at the input of the counterexample,
`cos_zenith = 0.5`, `lai = 1e-10`, `par = 100`, `diffuse_frac = 0.25`, with
the double-precision values of `exp` and `delta = 2^-53`. -/
theorem C20_apar_nonneg_within_error_witness :
    ((∀ x : ℝ, x ≤ 0 →
        |(fun y : ℝ =>
            if y = -1e-10 then 9007199253840272 / 9007199254740992
            else if y = -1.718e-10 then 9007199253193555 / 9007199254740992
            else if y = -1.92e-10 then 9007199253011610 / 9007199254740992
            else if y = -2e-10 then 9007199252939552 / 9007199254740992
            else if y = -9.2e-11 then 9007199253912330 / 9007199254740992
            else if y = -7.18e-11 then 9007199254094275 / 9007199254740992
            else Real.exp y) x - Real.exp x| ≤ 1 / 9007199254740992) ∧
      (0 : ℝ) ≤ 100 ∧
      0 ≤ (⟨0.5, 30, 0.25, 0.75, 0, 0, 0, 0⟩ : canopy_wk ℝ).diffuse_frac ∧
      (⟨0.5, 30, 0.25, 0.75, 0, 0, 0, 0⟩ : canopy_wk ℝ).diffuse_frac ≤ 1 ∧
      (⟨0.5, 30, 0.25, 0.75, 0, 0, 0, 0⟩ : canopy_wk ℝ).direct_frac =
        1 - (⟨0.5, 30, 0.25, 0.75, 0, 0, 0, 0⟩ : canopy_wk ℝ).diffuse_frac ∧
      0 ≤ (⟨1e-10⟩ : state ℝ).lai ∧
      0 < (⟨0.5, 30, 0.25, 0.75, 0, 0, 0, 0⟩ : canopy_wk ℝ).cos_zenith ∧
      (⟨0.5, 30, 0.25, 0.75, 0, 0, 0, 0⟩ : canopy_wk ℝ).cos_zenith ≤ 1) ∧
    ∃ cw', calculate_absorbed_radiation
        (fun y : ℝ =>
          if y = -1e-10 then 9007199253840272 / 9007199254740992
          else if y = -1.718e-10 then 9007199253193555 / 9007199254740992
          else if y = -1.92e-10 then 9007199253011610 / 9007199254740992
          else if y = -2e-10 then 9007199252939552 / 9007199254740992
          else if y = -9.2e-11 then 9007199253912330 / 9007199254740992
          else if y = -7.18e-11 then 9007199254094275 / 9007199254740992
          else Real.exp y)
        (⟨0.5, 30, 0.25, 0.75, 0, 0, 0, 0⟩ : canopy_wk ℝ) ⟨45, 0, 1⟩ ⟨1e-10⟩ 100 = some cw' ∧
      -(3 * 100 * (1 / 9007199254740992)) ≤ cw'.apar_leaf_SUNLIT ∧
      -(4 * 100 * (1 / 9007199254740992)) ≤ cw'.apar_leaf_SHADED := by
  have hyp : (0 : ℝ) ≤ 100 ∧
      0 ≤ (⟨0.5, 30, 0.25, 0.75, 0, 0, 0, 0⟩ : canopy_wk ℝ).diffuse_frac ∧
      (⟨0.5, 30, 0.25, 0.75, 0, 0, 0, 0⟩ : canopy_wk ℝ).diffuse_frac ≤ 1 ∧
      (⟨0.5, 30, 0.25, 0.75, 0, 0, 0, 0⟩ : canopy_wk ℝ).direct_frac =
        1 - (⟨0.5, 30, 0.25, 0.75, 0, 0, 0, 0⟩ : canopy_wk ℝ).diffuse_frac ∧
      0 ≤ (⟨1e-10⟩ : state ℝ).lai ∧
      0 < (⟨0.5, 30, 0.25, 0.75, 0, 0, 0, 0⟩ : canopy_wk ℝ).cos_zenith ∧
      (⟨0.5, 30, 0.25, 0.75, 0, 0, 0, 0⟩ : canopy_wk ℝ).cos_zenith ≤ 1 := by
    norm_num
  obtain ⟨cw', h, h1, -, h2⟩ := C20_apar_nonneg_within_error _ (1 / 9007199254740992)
    ⟨0.5, 30, 0.25, 0.75, 0, 0, 0, 0⟩ ⟨45, 0, 1⟩ ⟨1e-10⟩ 100 exp_double_table_close
    hyp.1 hyp.2.1 hyp.2.2.1 hyp.2.2.2.1 hyp.2.2.2.2.1 hyp.2.2.2.2.2.1 hyp.2.2.2.2.2.2
  exact ⟨⟨exp_double_table_close, hyp⟩, cw', h, h1, h2⟩

end Claims

end GDAY
